import Mathlib

/-!
# Chimera assembly (crawl-ref/source/mon-chimera.cc)

A shallow embedding of the chimera code of `mon-chimera.cc`:
the candidate filter (`is_valid_chimera_part`, `is_bad_chimera_part`), the
part selector (`define_chimera_for_place`, `chimera_part_for_place`), the
assembler (`define_chimera`, `apply_chimera_part`) and the introspection
functions (`get_chimera_part`, `get_chimera_wings`, `get_chimera_legs`, ...).

Conventions of the embedding.

* `monster_type`, `spell_type` and the other enums are integers.
* Everything the file calls but does not define (the monster database, the
  instantiation routine `define_monster`, the weighted pickers, the random
  number generator, the enum constants) is a field of the structure `Env`.
  Routines that consume randomness or other global state thread an abstract
  state `G`.
* A failed `ASSERT` is the error branch of `Except die`.
* The property bag `props` is a map from string keys to integers.
* `monster_spells` is a fixed vector of six slots; writing outside it is the
  fixed vector's range check.
-/

namespace Chimera

/-- Enum `monster_type`, by numeric value. -/
abbrev monster_type := Int

/-- Enum `spell_type`, by numeric value. -/
abbrev spell_type := Int

/-- The property bag of a monster (`CrawlHashTable`), restricted to integer
values: `none` is an absent key. -/
abbrev CrawlHashTable := String → Option Int

/-- The call `props.exists(key)`. -/
def props_exists (props : CrawlHashTable) (key : String) : Bool :=
  (props key).isSome

/-- The read `props[key].get_int()`. -/
def props_get_int (props : CrawlHashTable) (key : String) : Int :=
  (props key).getD 0

/-- The write `props[key] = v` (also `props[key].get_int() = v`): the entry is
created when absent and overwritten when present. -/
def props_set_int (props : CrawlHashTable) (key : String) (v : Int) : CrawlHashTable :=
  fun k => if k = key then some v else props k

/-- The fixed vector `monster_spells` of `NUM_MONSTER_SPELL_SLOTS = 6` slots. -/
abbrev monster_spells := Fin 6 → spell_type

/-- The fields of `class monster` the chimera code reads or writes, and the
hit points as fields it leaves alone. -/
structure monster where
  type : monster_type
  base_monster : monster_type
  colour : Int
  hit_points : Int
  max_hit_points : Int
  ac : Int
  ev : Int
  speed : Int
  flags : Nat
  spells : monster_spells
  props : CrawlHashTable

/-- The fields of `monster_info` read by the chimera code. -/
structure monster_info where
  type : monster_type
  base_type : monster_type
  props : CrawlHashTable

/-- A place of the dungeon (`level_id`). -/
structure level_id where
  branch : Int
  depth : Int

/-- A map position (`coord_def`). -/
structure coord_def where
  x : Int
  y : Int

/-- The ways the code aborts: each is a failed assertion. -/
inductive die where
  /-- Failure of `ASSERTPART(n)` at the head of `define_chimera`. -/
  | ASSERTPART (n : Nat)
  /-- Failure of `ASSERT(!mons_class_is_zombified(part))` in `apply_chimera_part`. -/
  | ASSERT_not_zombified
  /-- Failure of `ASSERT_RANGE(partnum,1,4)` in `get_chimera_part`. -/
  | ASSERT_RANGE
  /-- Failure of `ASSERT(mon->type == MONS_CHIMERA)` in `random_chimera_part`. -/
  | ASSERT_is_chimera
  /-- Failure of `ASSERT(chimtype > MONS_PROGRAM_BUG && chimtype < NUM_MONSTERS)`
  in `chimera_part_names`, for part `n`. -/
  | ASSERT_chimtype (n : Nat)
  /-- Failure of the range check of a fixed vector on an index outside it. -/
  | range_check_error
  deriving DecidableEq, Repr

/-- Everything `mon-chimera.cc` uses and does not define. `G` is the global
state threaded through the routines that draw random numbers; `P` is the type
of `monster_picker`. -/
structure Env (G : Type) (P : Type) where
  MONS_PROGRAM_BUG : monster_type
  MONS_0 : monster_type
  MONS_NO_MONSTER : monster_type
  MONS_CHIMERA : monster_type
  NUM_MONSTERS : monster_type
  SPELL_NO_SPELL : spell_type
  MF_SPELLCASTER : Nat
  M_NO_GEN_DERIVED : Nat
  I_INSECT : Int
  I_NORMAL : Int
  /-- The default constructor `monster::monster()`. -/
  fresh_monster : monster
  define_monster : G → monster → G × monster
  mons_class_colour : monster_type → Int
  mons_class_base_speed : monster_type → Int
  invalid_monster_type : monster_type → Bool
  mons_class_is_zombified : monster_type → Bool
  mons_class_flag : monster_type → Nat → Bool
  mons_class_is_hybrid : monster_type → Bool
  mons_species : monster_type → monster_type
  mons_class_intel : monster_type → Int
  mons_is_unique : monster_type → Bool
  mons_is_batty : monster → Bool
  mons_flies : monster → Bool
  is_jumpy : monster → Bool
  can_cling_to_walls : monster → Bool
  can_use_spells : monster → Bool
  positioned_monster_picker : coord_def → P
  absdepth : level_id → Int
  /-- The overload `pick_monster(place, picker, veto)`. -/
  pick_monster : G → level_id → P → (monster_type → Bool) → G × monster_type
  /-- The overload `pick_monster_all_branches(absdepth, picker, veto)`. -/
  pick_monster_all_branches : G → Int → P → (monster_type → Bool) → G × monster_type
  /-- The overload `pick_monster(place, veto)`. -/
  pick_monster_default : G → level_id → (monster_type → Bool) → G × monster_type
  /-- The overload `pick_monster_all_branches(absdepth, veto)`. -/
  pick_monster_all_branches_default : G → Int → (monster_type → Bool) → G × monster_type
  random2 : G → Int → G × Int
  /-- The field `get_monster_data(mc)->name`. -/
  monster_name : monster_type → String

variable {G P : Type}

/-- Source: `is_valid_chimera_part`. -/
def is_valid_chimera_part (E : Env G P) (part : monster_type) : Bool :=
  !(part == E.MONS_NO_MONSTER
    || part == E.MONS_CHIMERA
    || E.invalid_monster_type part
    || E.mons_class_is_zombified part
    || E.mons_class_flag part E.M_NO_GEN_DERIVED)

/-- Source: `is_bad_chimera_part`. -/
def is_bad_chimera_part (E : Env G P) (part : monster_type) : Bool :=
  (!is_valid_chimera_part E part)
    || E.mons_class_is_hybrid part
    || E.mons_class_is_zombified part
    || E.mons_species part != part
    || decide (E.mons_class_intel part > E.I_NORMAL)
    || decide (E.mons_class_intel part < E.I_INSECT)
    || E.mons_is_unique part

/-- Modelled from the spec: the macro `ASSERTPART` of `mon-chimera.h`, which is
not among the sources. The spec makes a part failing `is_valid_part` a fatal
precondition failure of the assembler. -/
def ASSERTPART (E : Env G P) (n : Nat) (part : monster_type) : Except die Unit :=
  if is_valid_chimera_part E part then .ok () else .error (die.ASSERTPART n)

/-- The write `spells[index] = v` on the fixed vector: an index outside
`0..5` fails the vector's range check. -/
def spells_set (spells : monster_spells) (index : Int) (v : spell_type) :
    Except die monster_spells :=
  if 0 ≤ index ∧ index < 6 then
    .ok (fun j => if (j.val : Int) = index then v else spells j)
  else .error die.range_check_error

/-- Source: `get_chimera_part(const monster*, int)`. -/
def get_chimera_part (E : Env G P) (mon : monster) (partnum : Int) :
    Except die monster_type :=
  if ¬ (1 ≤ partnum ∧ partnum < 4) then .error die.ASSERT_RANGE
  else if partnum = 1 then .ok mon.base_monster
  else if partnum = 2 ∧ props_exists mon.props "chimera_part_2" then
    .ok (props_get_int mon.props "chimera_part_2")
  else if partnum = 3 ∧ props_exists mon.props "chimera_part_3" then
    .ok (props_get_int mon.props "chimera_part_3")
  else .ok E.MONS_PROGRAM_BUG

/-- Source: `get_chimera_part(const monster_info*, int)`. -/
def get_chimera_part_info (E : Env G P) (mi : monster_info) (partnum : Int) :
    Except die monster_type :=
  if ¬ (1 ≤ partnum ∧ partnum < 4) then .error die.ASSERT_RANGE
  else if partnum = 1 then .ok mi.base_type
  else if partnum = 2 ∧ props_exists mi.props "chimera_part_2" then
    .ok (props_get_int mi.props "chimera_part_2")
  else if partnum = 3 ∧ props_exists mi.props "chimera_part_3" then
    .ok (props_get_int mi.props "chimera_part_3")
  else .ok E.MONS_PROGRAM_BUG

/-- Source: `random_chimera_part`. -/
def random_chimera_part (E : Env G P) (g : G) (mon : monster) :
    Except die (G × monster_type) :=
  if mon.type ≠ E.MONS_CHIMERA then .error die.ASSERT_is_chimera
  else
    let r := E.random2 g 3
    (get_chimera_part E mon (r.2 + 1)).map (fun t => (r.1, t))

/-- Source: `chimera_is_batty`. -/
def chimera_is_batty (mon : monster) : Bool :=
  props_exists mon.props "chimera_batty"

/-- Source: `get_chimera_wings`. -/
def get_chimera_wings (E : Env G P) (mon : monster) : Except die monster_type :=
  if chimera_is_batty mon then
    get_chimera_part E mon (props_get_int mon.props "chimera_batty")
  else if props_exists mon.props "chimera_wings" then
    get_chimera_part E mon (props_get_int mon.props "chimera_wings")
  else .ok E.MONS_NO_MONSTER

/-- Source: `get_chimera_legs`. -/
def get_chimera_legs (E : Env G P) (mon : monster) : Except die monster_type :=
  if props_exists mon.props "chimera_legs" then
    get_chimera_part E mon (props_get_int mon.props "chimera_legs")
  else .ok E.MONS_NO_MONSTER

/-- Source: `monster_info::chimera_part_names`. -/
def chimera_part_names (E : Env G P) (mi : monster_info) : Except die String :=
  if !props_exists mi.props "chimera_part_2" || !props_exists mi.props "chimera_part_3" then
    .ok ""
  else
    let chimtype2 := props_get_int mi.props "chimera_part_2"
    let chimtype3 := props_get_int mi.props "chimera_part_3"
    if ¬ (chimtype2 > E.MONS_PROGRAM_BUG ∧ chimtype2 < E.NUM_MONSTERS) then
      .error (die.ASSERT_chimtype 2)
    else if ¬ (chimtype3 > E.MONS_PROGRAM_BUG ∧ chimtype3 < E.NUM_MONSTERS) then
      .error (die.ASSERT_chimtype 3)
    else
      .ok (", " ++ E.monster_name chimtype2 ++ ", " ++ E.monster_name chimtype3)

/-- The temporary monster of `apply_chimera_part`:
`monster dummy; dummy.type = part; define_monster(&dummy);`. -/
def make_dummy (E : Env G P) (g : G) (part : monster_type) : G × monster :=
  E.define_monster g { E.fresh_monster with type := part }

/-- Source: `apply_chimera_part`. -/
def apply_chimera_part (E : Env G P) (g : G) (mon : monster) (part : monster_type)
    (partnum : Int) : Except die (G × monster) :=
  if E.mons_class_is_zombified part then .error die.ASSERT_not_zombified
  else
    let gd := make_dummy E g part
    let g := gd.1
    let dummy := gd.2
    let mon : monster :=
      if E.mons_is_batty dummy then
        { mon with props := props_set_int mon.props "chimera_batty" partnum }
      else if E.mons_flies dummy then
        { mon with props := props_set_int mon.props "chimera_wings" partnum }
      else mon
    let mon : monster :=
      if E.is_jumpy dummy
          || (E.can_cling_to_walls dummy && !props_exists mon.props "chimera_legs") then
        { mon with ev := dummy.ev,
                   props := props_set_int mon.props "chimera_legs" partnum }
      else mon
    if partnum = 1 then
      .ok (g, { mon with ac := dummy.ac, ev := dummy.ev })
    else
      let mon : monster :=
        if E.can_use_spells dummy then
          { mon with flags := mon.flags ||| E.MF_SPELLCASTER }
        else mon
      let boltslot := partnum + 1
      let written : Except die monster_spells :=
        if dummy.spells 0 ≠ E.SPELL_NO_SPELL then
          spells_set mon.spells boltslot (dummy.spells 0)
        else .ok mon.spells
      match written with
      | .error e => .error e
      | .ok spells =>
        let mon : monster := { mon with spells := spells }
        let mon : monster :=
          if mon.spells 1 = E.SPELL_NO_SPELL ∧ dummy.spells 1 ≠ E.SPELL_NO_SPELL then
            { mon with spells := fun j => if j = 1 then dummy.spells 1 else mon.spells j }
          else mon
        let mon : monster :=
          if mon.spells 2 = E.SPELL_NO_SPELL ∧ dummy.spells 2 ≠ E.SPELL_NO_SPELL then
            { mon with spells := fun j => if j = 2 then dummy.spells 2 else mon.spells j }
          else mon
        let mon : monster :=
          if mon.spells 5 = E.SPELL_NO_SPELL ∧ dummy.spells 5 ≠ E.SPELL_NO_SPELL then
            { mon with spells := fun j => if j = 5 then dummy.spells 5 else mon.spells j }
          else mon
        .ok (g, mon)

/-- The head of `define_chimera` up to the applications of the parts: the
target is instantiated as `parts[0]`, then retagged as a chimera and given the
three part ids. -/
def chimera_baseline (E : Env G P) (g : G) (mon : monster)
    (parts0 parts1 parts2 : monster_type) : G × monster :=
  let mon : monster := { mon with type := parts0 }
  let mon : monster := { mon with base_monster := E.MONS_PROGRAM_BUG }
  let gm := E.define_monster g mon
  let mon := gm.2
  (gm.1,
   { mon with
      type := E.MONS_CHIMERA,
      colour := E.mons_class_colour E.MONS_CHIMERA,
      base_monster := parts0,
      props := props_set_int (props_set_int mon.props "chimera_part_2" parts1)
                 "chimera_part_3" parts2 })

/-- The tail of `define_chimera`: the composite speed. -/
def chimera_speed (E : Env G P) (mon : monster) (parts0 : monster_type) :
    Except die monster :=
  match get_chimera_wings E mon with
  | .error e => .error e
  | .ok wings =>
    match get_chimera_legs E mon with
    | .error e => .error e
    | .ok legs0 =>
      let legs := if legs0 = E.MONS_NO_MONSTER then parts0 else legs0
      if wings ≠ E.MONS_NO_MONSTER ∧ wings ≠ legs then
        .ok { mon with speed :=
                Int.tdiv (E.mons_class_base_speed legs + E.mons_class_base_speed wings) 2 }
      else if legs ≠ parts0 then
        .ok { mon with speed := E.mons_class_base_speed legs }
      else .ok mon

/-- Source: `define_chimera(monster*, monster_type parts[])`, the array given
as its three entries. -/
def define_chimera (E : Env G P) (g : G) (mon : monster)
    (parts0 parts1 parts2 : monster_type) : Except die (G × monster) :=
  match ASSERTPART E 0 parts0 with
  | .error e => .error e
  | .ok _ =>
  match ASSERTPART E 1 parts1 with
  | .error e => .error e
  | .ok _ =>
  match ASSERTPART E 2 parts2 with
  | .error e => .error e
  | .ok _ =>
    let gm := chimera_baseline E g mon parts0 parts1 parts2
    match apply_chimera_part E gm.1 gm.2 parts0 1 with
    | .error e => .error e
    | .ok gm1 =>
      match apply_chimera_part E gm1.1 gm1.2 parts1 2 with
      | .error e => .error e
      | .ok gm2 =>
        match apply_chimera_part E gm2.1 gm2.2 parts2 3 with
        | .error e => .error e
        | .ok gm3 =>
          match chimera_speed E gm3.2 parts0 with
          | .error e => .error e
          | .ok mon => .ok (gm3.1, mon)

/-- One turn of the loop of `define_chimera_for_place`: the branch-local pick,
and the all-branches pick when the first gave `MONS_0`. -/
def pick_chimera_part (E : Env G P) (g : G) (place : level_id) (picker : P) :
    G × monster_type :=
  let gp := E.pick_monster g place picker (is_bad_chimera_part E)
  if gp.2 = E.MONS_0 then
    E.pick_monster_all_branches gp.1 (E.absdepth place) picker (is_bad_chimera_part E)
  else gp

/-- Source: `define_chimera_for_place`, its loop of three turns written out.
The result carries the state, the target monster and the returned flag. -/
def define_chimera_for_place (E : Env G P) (g : G) (mon : monster) (place : level_id)
    (chimera_type : monster_type) (pos : coord_def) : Except die (G × monster × Bool) :=
  let _unused := chimera_type
  let picker := E.positioned_monster_picker pos
  let gp0 := pick_chimera_part E g place picker
  if gp0.2 = E.MONS_0 then .ok (gp0.1, mon, false)
  else
    let gp1 := pick_chimera_part E gp0.1 place picker
    if gp1.2 = E.MONS_0 then .ok (gp1.1, mon, false)
    else
      let gp2 := pick_chimera_part E gp1.1 place picker
      if gp2.2 = E.MONS_0 then .ok (gp2.1, mon, false)
      else
        match define_chimera E gp2.1 mon gp0.2 gp1.2 gp2.2 with
        | .error e => .error e
        | .ok gm => .ok (gm.1, gm.2, true)

/-- Source: `chimera_part_for_place`. -/
def chimera_part_for_place (E : Env G P) (g : G) (place : level_id)
    (chimera_type : monster_type) : G × monster_type :=
  let _unused := chimera_type
  let gp := E.pick_monster_default g place (is_bad_chimera_part E)
  if gp.2 = E.MONS_0 then
    E.pick_monster_all_branches_default gp.1 (E.absdepth place) (is_bad_chimera_part E)
  else gp

/-! ## The stages of one application, and the trace of an assembly -/

/-- The batty and wings step of `apply_chimera_part`. -/
def stage_wings (E : Env G P) (dummy : monster) (partnum : Int) (mon : monster) : monster :=
  if E.mons_is_batty dummy then
    { mon with props := props_set_int mon.props "chimera_batty" partnum }
  else if E.mons_flies dummy then
    { mon with props := props_set_int mon.props "chimera_wings" partnum }
  else mon

/-- The legs step of `apply_chimera_part`. -/
def stage_legs (E : Env G P) (dummy : monster) (partnum : Int) (mon : monster) : monster :=
  if E.is_jumpy dummy
      || (E.can_cling_to_walls dummy && !props_exists mon.props "chimera_legs") then
    { mon with ev := dummy.ev,
               props := props_set_int mon.props "chimera_legs" partnum }
  else mon

/-- The spellcaster step of `apply_chimera_part`. -/
def stage_flag (E : Env G P) (dummy : monster) (mon : monster) : monster :=
  if E.can_use_spells dummy then
    { mon with flags := mon.flags ||| E.MF_SPELLCASTER }
  else mon

/-- The write of the primary spell into the misc slot in `apply_chimera_part`. -/
def stage_bolt (E : Env G P) (dummy : monster) (boltslot : Int) (mon : monster) :
    Except die monster_spells :=
  if dummy.spells 0 ≠ E.SPELL_NO_SPELL then
    spells_set mon.spells boltslot (dummy.spells 0)
  else .ok mon.spells

/-- The merge of the special slot `s` in `apply_chimera_part`. -/
def stage_merge (E : Env G P) (dummy : monster) (s : Fin 6) (mon : monster) : monster :=
  if mon.spells s = E.SPELL_NO_SPELL ∧ dummy.spells s ≠ E.SPELL_NO_SPELL then
    { mon with spells := fun j => if j = s then dummy.spells s else mon.spells j }
  else mon

/-- The legs test of `apply_chimera_part` for a temporary monster `dummy`, on
the property bag of the target. -/
def takes_legs (E : Env G P) (dummy : monster) (props : CrawlHashTable) : Bool :=
  E.is_jumpy dummy || (E.can_cling_to_walls dummy && !props_exists props "chimera_legs")

/-- The property bag after the batty, wings and legs steps of one application. -/
def roles_props (E : Env G P) (dummy : monster) (partnum : Int)
    (props : CrawlHashTable) : CrawlHashTable :=
  let p1 :=
    if E.mons_is_batty dummy then props_set_int props "chimera_batty" partnum
    else if E.mons_flies dummy then props_set_int props "chimera_wings" partnum
    else props
  if takes_legs E dummy p1 then props_set_int p1 "chimera_legs" partnum else p1

/-- The target after the batty, wings and legs steps of one application. -/
def part_roles (E : Env G P) (dummy : monster) (partnum : Int) (mon : monster) : monster :=
  { mon with
      ev := if takes_legs E dummy mon.props then dummy.ev else mon.ev,
      props := roles_props E dummy partnum mon.props }

/-- The merge of one special slot: the target keeps its spell unless the slot
is empty and the temporary monster has one. -/
def merge_slot (E : Env G P) (dummy : monster) (s : Fin 6) (spells : monster_spells) :
    monster_spells :=
  if spells s = E.SPELL_NO_SPELL ∧ dummy.spells s ≠ E.SPELL_NO_SPELL then
    fun j => if j = s then dummy.spells s else spells j
  else spells

/-- The spell slots of the target after one application of a part whose
primary spell goes to `slot`. -/
def merged_spells (E : Env G P) (dummy : monster) (slot : Fin 6)
    (spells : monster_spells) : monster_spells :=
  let s0 : monster_spells :=
    if dummy.spells 0 ≠ E.SPELL_NO_SPELL then
      fun j => if j = slot then dummy.spells 0 else spells j
    else spells
  merge_slot E dummy 5 (merge_slot E dummy 2 (merge_slot E dummy 1 s0))

/-- The target after the spellcaster and spell steps of one application. -/
def part_spells (E : Env G P) (dummy : monster) (slot : Fin 6) (mon : monster) : monster :=
  { mon with
      flags := if E.can_use_spells dummy then mon.flags ||| E.MF_SPELLCASTER else mon.flags,
      spells := merged_spells E dummy slot mon.spells }

/-- The state and target after the application of part 1. -/
def applied1 (E : Env G P) (g : G) (mon : monster) (parts0 parts1 parts2 : monster_type) :
    G × monster :=
  let b := chimera_baseline E g mon parts0 parts1 parts2
  let d := make_dummy E b.1 parts0
  (d.1, { part_roles E d.2 1 b.2 with ac := d.2.ac, ev := d.2.ev })

/-- The state and target after the applications of parts 1 and 2. -/
def applied2 (E : Env G P) (g : G) (mon : monster) (parts0 parts1 parts2 : monster_type) :
    G × monster :=
  let a := applied1 E g mon parts0 parts1 parts2
  let d := make_dummy E a.1 parts1
  (d.1, part_spells E d.2 3 (part_roles E d.2 2 a.2))

/-- The state and target after the applications of parts 1, 2 and 3. -/
def applied3 (E : Env G P) (g : G) (mon : monster) (parts0 parts1 parts2 : monster_type) :
    G × monster :=
  let a := applied2 E g mon parts0 parts1 parts2
  let d := make_dummy E a.1 parts2
  (d.1, part_spells E d.2 4 (part_roles E d.2 3 a.2))

/-- The temporary monster made for part 1 during `define_chimera`. -/
def dummy1 (E : Env G P) (g : G) (mon : monster) (parts0 parts1 parts2 : monster_type) :
    monster :=
  (make_dummy E (chimera_baseline E g mon parts0 parts1 parts2).1 parts0).2

/-- The temporary monster made for part 2 during `define_chimera`. -/
def dummy2 (E : Env G P) (g : G) (mon : monster) (parts0 parts1 parts2 : monster_type) :
    monster :=
  (make_dummy E (applied1 E g mon parts0 parts1 parts2).1 parts1).2

/-- The temporary monster made for part 3 during `define_chimera`. -/
def dummy3 (E : Env G P) (g : G) (mon : monster) (parts0 parts1 parts2 : monster_type) :
    monster :=
  (make_dummy E (applied2 E g mon parts0 parts1 parts2).1 parts2).2

/-- Every role marker present in the bag is a part number the introspection
accepts (`1 <= n < 4`). -/
def roles_in_range (props : CrawlHashTable) : Prop :=
  ∀ key, key = "chimera_batty" ∨ key = "chimera_wings" ∨ key = "chimera_legs" →
    ∀ n, props key = some n → 1 ≤ n ∧ n < 4

/-! ## The trace of a selection -/

/-- A slot of the selection fails in state `g`: the branch-local pick returns
`MONS_0` and so does the all-branches pick made after it. -/
def chimera_slot_fails (E : Env G P) (g : G) (place : level_id) (picker : P) : Prop :=
  (E.pick_monster g place picker (is_bad_chimera_part E)).2 = E.MONS_0 ∧
  (E.pick_monster_all_branches
    (E.pick_monster g place picker (is_bad_chimera_part E)).1
    (E.absdepth place) picker (is_bad_chimera_part E)).2 = E.MONS_0

/-- The state and the part after the first turn of the loop of
`define_chimera_for_place`. -/
def place_pick0 (E : Env G P) (g : G) (place : level_id) (pos : coord_def) :
    G × monster_type :=
  pick_chimera_part E g place (E.positioned_monster_picker pos)

/-- The state and the part after the second turn of the loop. -/
def place_pick1 (E : Env G P) (g : G) (place : level_id) (pos : coord_def) :
    G × monster_type :=
  pick_chimera_part E (place_pick0 E g place pos).1 place (E.positioned_monster_picker pos)

/-- The state and the part after the third turn of the loop. -/
def place_pick2 (E : Env G P) (g : G) (place : level_id) (pos : coord_def) :
    G × monster_type :=
  pick_chimera_part E (place_pick1 E g place pos).1 place (E.positioned_monster_picker pos)

/-- The branch-local pick of a slot in state `g`. -/
def local_pick (E : Env G P) (g : G) (place : level_id) (picker : P) : G × monster_type :=
  E.pick_monster g place picker (is_bad_chimera_part E)

/-- The all-branches pick of a slot in state `g`: it is made after the
branch-local pick, at the absolute depth of the place and with the same
exclusion predicate. -/
def fallback_pick (E : Env G P) (g : G) (place : level_id) (picker : P) :
    G × monster_type :=
  E.pick_monster_all_branches (local_pick E g place picker).1 (E.absdepth place) picker
    (is_bad_chimera_part E)

/-- The fallback draw of the first slot. -/
def fallback0 (E : Env G P) (g : G) (place : level_id) (pos : coord_def) :
    G × monster_type :=
  fallback_pick E g place (E.positioned_monster_picker pos)

/-- The fallback draw of the second slot, made after the fallback draw of the
first. -/
def fallback1 (E : Env G P) (g : G) (place : level_id) (pos : coord_def) :
    G × monster_type :=
  fallback_pick E (fallback0 E g place pos).1 place (E.positioned_monster_picker pos)

/-- The fallback draw of the third slot, made after the fallback draw of the
second. -/
def fallback2 (E : Env G P) (g : G) (place : level_id) (pos : coord_def) :
    G × monster_type :=
  fallback_pick E (fallback1 E g place pos).1 place (E.positioned_monster_picker pos)

/-- The part of one slot as the specification words it: the branch-local pick
when that pick is not `MONS_0`, and otherwise the all-branches pick, made after
it at the absolute depth of the place with the same exclusion predicate. It is
written on the pickers of the environment, not on the code of the loop. -/
def slot_draw (E : Env G P) (g : G) (place : level_id) (picker : P) : G × monster_type :=
  if (E.pick_monster g place picker (is_bad_chimera_part E)).2 ≠ E.MONS_0 then
    E.pick_monster g place picker (is_bad_chimera_part E)
  else
    E.pick_monster_all_branches
      (E.pick_monster g place picker (is_bad_chimera_part E)).1
      (E.absdepth place) picker (is_bad_chimera_part E)

/-- The draw of the first slot as the specification words it. -/
def slot_draw0 (E : Env G P) (g : G) (place : level_id) (pos : coord_def) :
    G × monster_type :=
  slot_draw E g place (E.positioned_monster_picker pos)

/-- The draw of the second slot, made in the state left by the first. -/
def slot_draw1 (E : Env G P) (g : G) (place : level_id) (pos : coord_def) :
    G × monster_type :=
  slot_draw E (slot_draw0 E g place pos).1 place (E.positioned_monster_picker pos)

/-- The draw of the third slot, made in the state left by the second. -/
def slot_draw2 (E : Env G P) (g : G) (place : level_id) (pos : coord_def) :
    G × monster_type :=
  slot_draw E (slot_draw1 E g place pos).1 place (E.positioned_monster_picker pos)

/-! ## A small monster database, for evaluating the code on concrete inputs

Types: 1 a wall-clinging spider (speed 10), 2 a spellcaster, 3 a jumping
spider, 4 a bat (batty), 5 a bird (flies, speed 14), 6 a zombie;
`MONS_CHIMERA` is 50, `MONS_NO_MONSTER` is 1000. -/

/-- Spell slots of the sample types. -/
def sample_spells (t : monster_type) : monster_spells :=
  fun j =>
    if t = 2 then (if j = 0 then 71 else if j = 1 then 72 else 0)
    else if t = 5 then (if j = 0 then 81 else if j = 5 then 85 else 0)
    else 0

/-- Base speed of the sample types. -/
def sample_speed (t : monster_type) : Int :=
  if t = 3 then 15 else if t = 4 then 30 else if t = 5 then 14 else 10

/-- Instantiation of a sample type: the stat block is read off the type, the
state counts the calls. -/
def sample_define_monster (g : Nat) (m : monster) : Nat × monster :=
  (g + 1,
   { m with
      hit_points := 20, max_hit_points := 20,
      ac := m.type + 2, ev := 3 * m.type + 1,
      speed := sample_speed m.type,
      flags := if m.type = 2 then 256 else 0,
      spells := sample_spells m.type })

/-- The candidate drawn by the sample pickers in state `g`. -/
def sample_candidate (g : Nat) : monster_type :=
  if g = 100 then 6 else if g % 3 = 0 then 1 else if g % 3 = 1 then 2 else 5

/-- An all-zero monster without properties. -/
def blank_monster : monster :=
  { type := 0, base_monster := 0, colour := 0, hit_points := 0, max_hit_points := 0,
    ac := 0, ev := 0, speed := 0, flags := 0, spells := fun _ => 0, props := fun _ => none }

/-- The sample environment. -/
def sampleEnv : Env Nat Unit where
  MONS_PROGRAM_BUG := 0
  MONS_0 := 0
  MONS_NO_MONSTER := 1000
  MONS_CHIMERA := 50
  NUM_MONSTERS := 100
  SPELL_NO_SPELL := 0
  MF_SPELLCASTER := 256
  M_NO_GEN_DERIVED := 1
  I_INSECT := 1
  I_NORMAL := 3
  fresh_monster := blank_monster
  define_monster := sample_define_monster
  mons_class_colour := fun _ => 7
  mons_class_base_speed := sample_speed
  invalid_monster_type := fun t => decide (t < 0) || decide (100 ≤ t)
  mons_class_is_zombified := fun t => t == 6
  mons_class_flag := fun _ _ => false
  mons_class_is_hybrid := fun _ => false
  mons_species := fun t => t
  mons_class_intel := fun _ => 2
  mons_is_unique := fun _ => false
  mons_is_batty := fun m => m.type == 4
  mons_flies := fun m => m.type == 4 || m.type == 5
  is_jumpy := fun m => m.type == 3
  can_cling_to_walls := fun m => m.type == 1 || m.type == 3
  can_use_spells := fun m => m.type == 2
  positioned_monster_picker := fun _ => ()
  absdepth := fun place => place.depth
  pick_monster := fun g _ _ veto =>
    (g + 1, if veto (sample_candidate g) then 0 else sample_candidate g)
  pick_monster_all_branches := fun g _ _ veto =>
    (g + 1, if g = 101 ∨ veto 3 then 0 else 3)
  pick_monster_default := fun g _ veto =>
    (g + 1, if veto (sample_candidate g) then 0 else sample_candidate g)
  pick_monster_all_branches_default := fun g _ veto =>
    (g + 1, if g = 101 ∨ veto 3 then 0 else 3)
  random2 := fun g n => (g + 1, (g : Int) % n)
  monster_name := fun t => if t = 1 then "spider" else if t = 5 then "bird" else "thing"

/-- The result of `define_chimera` in the sample environment, from state 0 on
a blank target (the blank target again if the call aborts). -/
def sample_chimera (p0 p1 p2 : monster_type) : Nat × monster :=
  match define_chimera sampleEnv 0 blank_monster p0 p1 p2 with
  | .ok r => r
  | .error _ => (0, blank_monster)

/-- The result of one `apply_chimera_part` in the sample environment, from
state 0 on a blank target (the blank target again if the call aborts). -/
def sample_applied (part : monster_type) (partnum : Int) : Nat × monster :=
  match apply_chimera_part sampleEnv 0 blank_monster part partnum with
  | .ok r => r
  | .error _ => (0, blank_monster)

/-- The result of `define_chimera_for_place` in the sample environment, from
state `g` on a blank target (the blank target and false if the call aborts). -/
def sample_placed (g : Nat) : Nat × monster × Bool :=
  match define_chimera_for_place sampleEnv g blank_monster ⟨0, 1⟩ 50 ⟨0, 0⟩ with
  | .ok r => r
  | .error _ => (0, blank_monster, false)

/-- The sample environment with an empty branch-local pool: the branch-local
picks always return `MONS_0`. -/
def emptyBranchEnv : Env Nat Unit :=
  { sampleEnv with
      pick_monster := fun g _ _ _ => (g + 1, 0)
      pick_monster_default := fun g _ _ => (g + 1, 0) }

/-- The result of `define_chimera_for_place` in the environment with an empty
branch-local pool, from state `g` on a blank target. -/
def empty_branch_placed (g : Nat) : Nat × monster × Bool :=
  match define_chimera_for_place emptyBranchEnv g blank_monster ⟨0, 1⟩ 50 ⟨0, 0⟩ with
  | .ok r => r
  | .error _ => (0, blank_monster, false)

/-- The sample environment with one more type, 7, that both flies and clings
to walls (base speed 10). -/
def wingedClingerEnv : Env Nat Unit :=
  { sampleEnv with
      mons_flies := fun m => m.type == 4 || m.type == 5 || m.type == 7
      can_cling_to_walls := fun m => m.type == 1 || m.type == 3 || m.type == 7 }

/-- The result of `define_chimera` in the environment with the winged
clinger, from state 0 on a blank target. -/
def winged_clinger_chimera (p0 p1 p2 : monster_type) : Nat × monster :=
  match define_chimera wingedClingerEnv 0 blank_monster p0 p1 p2 with
  | .ok r => r
  | .error _ => (0, blank_monster)

/-- The `monster_info` of the sample chimera of parts 1, 2, 5: its base type
and properties mirror the monster's. -/
def sample_info : monster_info :=
  { type := 50, base_type := 1, props := (sample_chimera 1 2 5).2.props }

/-- The sample environment with a branch-local pool that is empty in state 1
only: there the branch-local pick returns `MONS_0`. -/
def fallbackOnceEnv : Env Nat Unit :=
  { sampleEnv with
      pick_monster := fun g _ _ veto =>
        (g + 1, if g = 1 ∨ veto (sample_candidate g) then 0 else sample_candidate g) }

/-- The result of `define_chimera_for_place` in the environment whose
branch-local pool is empty in state 1, from state `g` on a blank target. -/
def fallback_once_placed (g : Nat) : Nat × monster × Bool :=
  match define_chimera_for_place fallbackOnceEnv g blank_monster ⟨0, 1⟩ 50 ⟨0, 0⟩ with
  | .ok r => r
  | .error _ => (0, blank_monster, false)

/-! ## Basic facts -/

theorem fin6_int3 (j : Fin 6) : ((j.val : Int) = 3) ↔ j = 3 := by
  rw [Fin.ext_iff]
  show ((j.val : Int) = 3) ↔ j.val = 3
  omega

theorem fin6_int4 (j : Fin 6) : ((j.val : Int) = 4) ↔ j = 4 := by
  rw [Fin.ext_iff]
  show ((j.val : Int) = 4) ↔ j.val = 4
  omega

theorem takes_legs_set_batty (E : Env G P) (d : monster) (p : CrawlHashTable) (n : Int) :
    takes_legs E d (props_set_int p "chimera_batty" n) = takes_legs E d p := by
  simp [takes_legs, props_exists, props_set_int]

theorem takes_legs_set_wings (E : Env G P) (d : monster) (p : CrawlHashTable) (n : Int) :
    takes_legs E d (props_set_int p "chimera_wings" n) = takes_legs E d p := by
  simp [takes_legs, props_exists, props_set_int]

theorem apply_chimera_part_stages (E : Env G P) (g : G) (mon : monster)
    (part : monster_type) (partnum : Int) :
    apply_chimera_part E g mon part partnum =
      if E.mons_class_is_zombified part then .error die.ASSERT_not_zombified
      else
        if partnum = 1 then
          .ok ((make_dummy E g part).1,
            { stage_legs E (make_dummy E g part).2 partnum
                (stage_wings E (make_dummy E g part).2 partnum mon) with
              ac := (make_dummy E g part).2.ac, ev := (make_dummy E g part).2.ev })
        else
          match stage_bolt E (make_dummy E g part).2 (partnum + 1)
              (stage_flag E (make_dummy E g part).2
                (stage_legs E (make_dummy E g part).2 partnum
                  (stage_wings E (make_dummy E g part).2 partnum mon))) with
          | .error e => .error e
          | .ok spells =>
            .ok ((make_dummy E g part).1,
              stage_merge E (make_dummy E g part).2 5
                (stage_merge E (make_dummy E g part).2 2
                  (stage_merge E (make_dummy E g part).2 1
                    { stage_flag E (make_dummy E g part).2
                        (stage_legs E (make_dummy E g part).2 partnum
                          (stage_wings E (make_dummy E g part).2 partnum mon)) with
                      spells := spells }))) := rfl

theorem stage_roles_eq (E : Env G P) (d : monster) (n : Int) (mon : monster) :
    stage_legs E d n (stage_wings E d n mon) = part_roles E d n mon := by
  cases hb : E.mons_is_batty d <;> cases hf : E.mons_flies d <;>
    cases hj : E.is_jumpy d <;> cases hc : E.can_cling_to_walls d <;>
    cases hl : mon.props "chimera_legs" <;>
    simp [stage_legs, stage_wings, part_roles, roles_props, takes_legs, props_exists,
      props_set_int, hb, hf, hj, hc, hl]

theorem stage_merge_eq (E : Env G P) (d : monster) (s : Fin 6) (mon : monster) :
    stage_merge E d s mon = { mon with spells := merge_slot E d s mon.spells } := by
  unfold stage_merge merge_slot
  split_ifs <;> rfl

theorem stage_flag_eq (E : Env G P) (d : monster) (mon : monster) :
    stage_flag E d mon =
      { mon with flags :=
          if E.can_use_spells d then mon.flags ||| E.MF_SPELLCASTER else mon.flags } := by
  unfold stage_flag
  split_ifs <;> rfl

theorem stage_bolt_three (E : Env G P) (d : monster) (mon : monster) :
    stage_bolt E d (2 + 1) mon =
      .ok (if d.spells 0 ≠ E.SPELL_NO_SPELL then
             fun j => if j = 3 then d.spells 0 else mon.spells j
           else mon.spells) := by
  unfold stage_bolt spells_set
  by_cases h : d.spells 0 = E.SPELL_NO_SPELL
  · simp [h]
  · simp [h, fin6_int3]

theorem stage_bolt_four (E : Env G P) (d : monster) (mon : monster) :
    stage_bolt E d (3 + 1) mon =
      .ok (if d.spells 0 ≠ E.SPELL_NO_SPELL then
             fun j => if j = 4 then d.spells 0 else mon.spells j
           else mon.spells) := by
  unfold stage_bolt spells_set
  by_cases h : d.spells 0 = E.SPELL_NO_SPELL
  · simp [h]
  · simp [h, fin6_int4]

theorem apply_chimera_part_one (E : Env G P) (g : G) (mon : monster) (part : monster_type)
    (hz : E.mons_class_is_zombified part = false) :
    apply_chimera_part E g mon part 1 =
      .ok ((make_dummy E g part).1,
           { part_roles E (make_dummy E g part).2 1 mon with
               ac := (make_dummy E g part).2.ac, ev := (make_dummy E g part).2.ev }) := by
  rw [apply_chimera_part_stages, stage_roles_eq]
  simp [hz]

theorem apply_chimera_part_two (E : Env G P) (g : G) (mon : monster) (part : monster_type)
    (hz : E.mons_class_is_zombified part = false) :
    apply_chimera_part E g mon part 2 =
      .ok ((make_dummy E g part).1,
           part_spells E (make_dummy E g part).2 3 (part_roles E (make_dummy E g part).2 2 mon)) := by
  rw [apply_chimera_part_stages, stage_roles_eq, stage_bolt_three]
  simp only [hz, stage_merge_eq, stage_flag_eq, part_spells, merged_spells]
  simp

theorem apply_chimera_part_three (E : Env G P) (g : G) (mon : monster) (part : monster_type)
    (hz : E.mons_class_is_zombified part = false) :
    apply_chimera_part E g mon part 3 =
      .ok ((make_dummy E g part).1,
           part_spells E (make_dummy E g part).2 4 (part_roles E (make_dummy E g part).2 3 mon)) := by
  rw [apply_chimera_part_stages, stage_roles_eq, stage_bolt_four]
  simp only [hz, stage_merge_eq, stage_flag_eq, part_spells, merged_spells]
  simp

/-! ## The filter -/

theorem valid_not_zombified (E : Env G P) (t : monster_type)
    (h : is_valid_chimera_part E t = true) : E.mons_class_is_zombified t = false := by
  unfold is_valid_chimera_part at h
  cases hz : E.mons_class_is_zombified t
  · rfl
  · simp [hz] at h

theorem not_bad_valid (E : Env G P) (t : monster_type)
    (h : is_bad_chimera_part E t = false) : is_valid_chimera_part E t = true := by
  unfold is_bad_chimera_part at h
  cases hv : is_valid_chimera_part E t
  · simp [hv] at h
  · rfl

/-! ## The shape of `define_chimera` -/

theorem define_chimera_eq (E : Env G P) (g : G) (mon : monster) (p0 p1 p2 : monster_type)
    (h0 : is_valid_chimera_part E p0 = true) (h1 : is_valid_chimera_part E p1 = true)
    (h2 : is_valid_chimera_part E p2 = true) :
    define_chimera E g mon p0 p1 p2 =
      match chimera_speed E (applied3 E g mon p0 p1 p2).2 p0 with
      | .error e => .error e
      | .ok m => .ok ((applied3 E g mon p0 p1 p2).1, m) := by
  unfold define_chimera ASSERTPART
  simp only [h0, h1, h2, if_true]
  rw [apply_chimera_part_one E _ _ _ (valid_not_zombified E p0 h0)]
  simp only []
  rw [apply_chimera_part_two E _ _ _ (valid_not_zombified E p1 h1)]
  simp only []
  rw [apply_chimera_part_three E _ _ _ (valid_not_zombified E p2 h2)]
  rfl

theorem define_chimera_ok_valid (E : Env G P) (g : G) (mon : monster) (p0 p1 p2 : monster_type)
    (r : G × monster) (h : define_chimera E g mon p0 p1 p2 = .ok r) :
    is_valid_chimera_part E p0 = true ∧ is_valid_chimera_part E p1 = true ∧
      is_valid_chimera_part E p2 = true := by
  unfold define_chimera ASSERTPART at h
  cases h0 : is_valid_chimera_part E p0
  · simp [h0] at h
  · cases h1 : is_valid_chimera_part E p1
    · simp [h0, h1] at h
    · cases h2 : is_valid_chimera_part E p2
      · simp [h0, h1, h2] at h
      · exact ⟨rfl, rfl, rfl⟩

/-- The speed chosen at the end of `define_chimera` from the resolved wings
and legs, `old` being the speed before. -/
theorem chimera_speed_ok (E : Env G P) (m : monster) (p0 : monster_type) (m2 : monster)
    (h : chimera_speed E m p0 = .ok m2) :
    ∃ w l, get_chimera_wings E m = .ok w ∧ get_chimera_legs E m = .ok l ∧
      m2 = { m with speed :=
        (if w ≠ E.MONS_NO_MONSTER ∧ w ≠ (if l = E.MONS_NO_MONSTER then p0 else l) then
          Int.tdiv (E.mons_class_base_speed (if l = E.MONS_NO_MONSTER then p0 else l)
            + E.mons_class_base_speed w) 2
        else if (if l = E.MONS_NO_MONSTER then p0 else l) ≠ p0 then
          E.mons_class_base_speed (if l = E.MONS_NO_MONSTER then p0 else l)
        else m.speed) } := by
  unfold chimera_speed at h
  cases hw : get_chimera_wings E m with
  | error e => simp [hw] at h
  | ok w =>
    cases hl : get_chimera_legs E m with
    | error e => simp [hw, hl] at h
    | ok l =>
      refine ⟨w, l, rfl, rfl, ?_⟩
      simp only [hw, hl] at h
      generalize (if l = E.MONS_NO_MONSTER then p0 else l) = L at h ⊢
      by_cases c1 : w ≠ E.MONS_NO_MONSTER ∧ w ≠ L
      · rw [if_pos c1] at h
        rw [if_pos c1]
        exact (Except.ok.inj h).symm
      · rw [if_neg c1] at h
        rw [if_neg c1]
        by_cases c2 : L ≠ p0
        · rw [if_pos c2] at h
          rw [if_pos c2]
          exact (Except.ok.inj h).symm
        · rw [if_neg c2] at h
          rw [if_neg c2]
          exact (Except.ok.inj h).symm

theorem chimera_speed_of_roles (E : Env G P) (m : monster) (p0 : monster_type)
    (w l : monster_type) (hw : get_chimera_wings E m = .ok w)
    (hl : get_chimera_legs E m = .ok l) : ∃ m2, chimera_speed E m p0 = .ok m2 := by
  unfold chimera_speed
  simp only [hw, hl]
  split_ifs <;> exact ⟨_, rfl⟩

theorem get_chimera_part_congr (E : Env G P) (m m2 : monster) (n : Int)
    (hb : m2.base_monster = m.base_monster) (hp : m2.props = m.props) :
    get_chimera_part E m2 n = get_chimera_part E m n := by
  unfold get_chimera_part
  rw [hb, hp]

theorem get_chimera_wings_congr (E : Env G P) (m m2 : monster)
    (hb : m2.base_monster = m.base_monster) (hp : m2.props = m.props) :
    get_chimera_wings E m2 = get_chimera_wings E m := by
  unfold get_chimera_wings chimera_is_batty
  rw [hp, get_chimera_part_congr E m m2 _ hb hp, get_chimera_part_congr E m m2 _ hb hp]

theorem get_chimera_legs_congr (E : Env G P) (m m2 : monster)
    (hb : m2.base_monster = m.base_monster) (hp : m2.props = m.props) :
    get_chimera_legs E m2 = get_chimera_legs E m := by
  unfold get_chimera_legs
  rw [hp, get_chimera_part_congr E m m2 _ hb hp]

/-- What a successful `define_chimera` returns: the target after the three
applications, with the speed chosen from the resolved wings and legs. -/
theorem define_chimera_result (E : Env G P) (g : G) (mon : monster)
    (p0 p1 p2 : monster_type) (r : G × monster)
    (h : define_chimera E g mon p0 p1 p2 = .ok r) :
    r.1 = (applied3 E g mon p0 p1 p2).1 ∧
    ∃ w l, get_chimera_wings E (applied3 E g mon p0 p1 p2).2 = .ok w ∧
      get_chimera_legs E (applied3 E g mon p0 p1 p2).2 = .ok l ∧
      r.2 = { (applied3 E g mon p0 p1 p2).2 with speed :=
        (if w ≠ E.MONS_NO_MONSTER ∧ w ≠ (if l = E.MONS_NO_MONSTER then p0 else l) then
          Int.tdiv (E.mons_class_base_speed (if l = E.MONS_NO_MONSTER then p0 else l)
            + E.mons_class_base_speed w) 2
        else if (if l = E.MONS_NO_MONSTER then p0 else l) ≠ p0 then
          E.mons_class_base_speed (if l = E.MONS_NO_MONSTER then p0 else l)
        else (applied3 E g mon p0 p1 p2).2.speed) } := by
  obtain ⟨h0, h1, h2⟩ := define_chimera_ok_valid E g mon p0 p1 p2 r h
  rw [define_chimera_eq E g mon p0 p1 p2 h0 h1 h2] at h
  cases hs : chimera_speed E (applied3 E g mon p0 p1 p2).2 p0 with
  | error e => simp [hs] at h
  | ok m2 =>
    simp only [hs, Except.ok.injEq] at h
    obtain ⟨w, l, hw, hl, hm⟩ := chimera_speed_ok E _ p0 m2 hs
    subst h
    exact ⟨rfl, w, l, hw, hl, hm⟩

/-! ## The property bag through one application -/

theorem roles_props_other (E : Env G P) (d : monster) (n : Int) (p : CrawlHashTable)
    (key : String) (hb : key ≠ "chimera_batty") (hw : key ≠ "chimera_wings")
    (hl : key ≠ "chimera_legs") : roles_props E d n p key = p key := by
  cases hB : E.mons_is_batty d <;> cases hF : E.mons_flies d <;>
    by_cases ht : takes_legs E d p = true <;>
    simp [roles_props, props_set_int, hB, hF, ht, takes_legs_set_batty,
      takes_legs_set_wings, hb, hw, hl]

theorem roles_props_batty (E : Env G P) (d : monster) (n : Int) (p : CrawlHashTable) :
    roles_props E d n p "chimera_batty" =
      if E.mons_is_batty d then some n else p "chimera_batty" := by
  cases hB : E.mons_is_batty d <;> cases hF : E.mons_flies d <;>
    by_cases ht : takes_legs E d p = true <;>
    simp [roles_props, props_set_int, hB, hF, ht, takes_legs_set_batty,
      takes_legs_set_wings]

theorem roles_props_wings (E : Env G P) (d : monster) (n : Int) (p : CrawlHashTable) :
    roles_props E d n p "chimera_wings" =
      if E.mons_is_batty d = false ∧ E.mons_flies d = true then some n
      else p "chimera_wings" := by
  cases hB : E.mons_is_batty d <;> cases hF : E.mons_flies d <;>
    by_cases ht : takes_legs E d p = true <;>
    simp [roles_props, props_set_int, hB, hF, ht, takes_legs_set_batty,
      takes_legs_set_wings]

theorem takes_legs_iff (E : Env G P) (d : monster) (p : CrawlHashTable) :
    takes_legs E d p = true ↔
      E.is_jumpy d = true ∨ (E.can_cling_to_walls d = true ∧ p "chimera_legs" = none) := by
  unfold takes_legs props_exists
  cases E.is_jumpy d <;> cases E.can_cling_to_walls d <;> cases p "chimera_legs" <;> simp

theorem roles_props_legs (E : Env G P) (d : monster) (n : Int) (p : CrawlHashTable) :
    roles_props E d n p "chimera_legs" =
      if E.is_jumpy d = true ∨ (E.can_cling_to_walls d = true ∧ p "chimera_legs" = none)
      then some n else p "chimera_legs" := by
  have hiff := takes_legs_iff E d p
  by_cases ht : takes_legs E d p = true
  · rw [if_pos (hiff.mp ht)]
    cases hB : E.mons_is_batty d <;> cases hF : E.mons_flies d <;>
      simp [roles_props, props_set_int, hB, hF, ht, takes_legs_set_batty,
        takes_legs_set_wings]
  · rw [if_neg (fun h => ht (hiff.mpr h))]
    cases hB : E.mons_is_batty d <;> cases hF : E.mons_flies d <;>
      simp [roles_props, props_set_int, hB, hF, ht, takes_legs_set_batty,
        takes_legs_set_wings]

theorem roles_props_in_range (E : Env G P) (d : monster) (n : Int) (p : CrawlHashTable)
    (hn : 1 ≤ n ∧ n < 4) (h : roles_in_range p) : roles_in_range (roles_props E d n p) := by
  intro key hkey v hv
  rcases hkey with hk | hk | hk
  · subst hk
    rw [roles_props_batty] at hv
    split_ifs at hv
    · cases hv; exact hn
    · exact h _ (Or.inl rfl) v hv
  · subst hk
    rw [roles_props_wings] at hv
    split_ifs at hv
    · cases hv; exact hn
    · exact h _ (Or.inr (Or.inl rfl)) v hv
  · subst hk
    rw [roles_props_legs] at hv
    split_ifs at hv
    · cases hv; exact hn
    · exact h _ (Or.inr (Or.inr rfl)) v hv

theorem roles_in_range_of_none (p : CrawlHashTable) (hb : p "chimera_batty" = none)
    (hw : p "chimera_wings" = none) (hl : p "chimera_legs" = none) : roles_in_range p := by
  intro key hkey v hv
  rcases hkey with hk | hk | hk <;> subst hk
  · rw [hb] at hv; cases hv
  · rw [hw] at hv; cases hv
  · rw [hl] at hv; cases hv

/-! ## Introspection on an assembled monster -/

theorem get_chimera_part_in_range (E : Env G P) (m : monster) (n : Int)
    (hn : 1 ≤ n ∧ n < 4) : ∃ t, get_chimera_part E m n = .ok t := by
  unfold get_chimera_part
  rw [if_neg (not_not.mpr hn)]
  split_ifs <;> exact ⟨_, rfl⟩

theorem get_chimera_part_assembled (E : Env G P) (m : monster) (p0 p1 p2 : monster_type)
    (hb : m.base_monster = p0) (h2 : m.props "chimera_part_2" = some p1)
    (h3 : m.props "chimera_part_3" = some p2) :
    get_chimera_part E m 1 = .ok p0 ∧ get_chimera_part E m 2 = .ok p1 ∧
      get_chimera_part E m 3 = .ok p2 := by
  refine ⟨?_, ?_, ?_⟩ <;>
    simp [get_chimera_part, props_exists, props_get_int, hb, h2, h3]

theorem get_chimera_wings_in_range (E : Env G P) (m : monster)
    (h : roles_in_range m.props) : ∃ w, get_chimera_wings E m = .ok w := by
  unfold get_chimera_wings chimera_is_batty props_exists props_get_int
  cases hb : m.props "chimera_batty" with
  | some v =>
    simpa using get_chimera_part_in_range E m v (h _ (Or.inl rfl) v hb)
  | none =>
    cases hw : m.props "chimera_wings" with
    | some v =>
      simpa using get_chimera_part_in_range E m v (h _ (Or.inr (Or.inl rfl)) v hw)
    | none => exact ⟨E.MONS_NO_MONSTER, by simp⟩

theorem get_chimera_legs_in_range (E : Env G P) (m : monster)
    (h : roles_in_range m.props) : ∃ l, get_chimera_legs E m = .ok l := by
  unfold get_chimera_legs props_exists props_get_int
  cases hl : m.props "chimera_legs" with
  | some v =>
    simpa using get_chimera_part_in_range E m v (h _ (Or.inr (Or.inr rfl)) v hl)
  | none => exact ⟨E.MONS_NO_MONSTER, by simp⟩

/-! ## The fields of the target after the three applications -/

theorem applied3_props (E : Env G P) (g : G) (mon : monster) (p0 p1 p2 : monster_type) :
    (applied3 E g mon p0 p1 p2).2.props =
      roles_props E (dummy3 E g mon p0 p1 p2) 3
        (roles_props E (dummy2 E g mon p0 p1 p2) 2
          (roles_props E (dummy1 E g mon p0 p1 p2) 1
            (chimera_baseline E g mon p0 p1 p2).2.props)) := rfl

theorem applied3_base_monster (E : Env G P) (g : G) (mon : monster)
    (p0 p1 p2 : monster_type) : (applied3 E g mon p0 p1 p2).2.base_monster = p0 := rfl

theorem baseline_part_2 (E : Env G P) (g : G) (mon : monster) (p0 p1 p2 : monster_type) :
    (chimera_baseline E g mon p0 p1 p2).2.props "chimera_part_2" = some p1 := by
  simp [chimera_baseline, props_set_int]

theorem baseline_part_3 (E : Env G P) (g : G) (mon : monster) (p0 p1 p2 : monster_type) :
    (chimera_baseline E g mon p0 p1 p2).2.props "chimera_part_3" = some p2 := by
  simp [chimera_baseline, props_set_int]

theorem applied3_part_2 (E : Env G P) (g : G) (mon : monster) (p0 p1 p2 : monster_type) :
    (applied3 E g mon p0 p1 p2).2.props "chimera_part_2" = some p1 := by
  rw [applied3_props, roles_props_other _ _ _ _ _ (by decide) (by decide) (by decide),
    roles_props_other _ _ _ _ _ (by decide) (by decide) (by decide),
    roles_props_other _ _ _ _ _ (by decide) (by decide) (by decide), baseline_part_2]

theorem applied3_part_3 (E : Env G P) (g : G) (mon : monster) (p0 p1 p2 : monster_type) :
    (applied3 E g mon p0 p1 p2).2.props "chimera_part_3" = some p2 := by
  rw [applied3_props, roles_props_other _ _ _ _ _ (by decide) (by decide) (by decide),
    roles_props_other _ _ _ _ _ (by decide) (by decide) (by decide),
    roles_props_other _ _ _ _ _ (by decide) (by decide) (by decide), baseline_part_3]

theorem applied3_in_range (E : Env G P) (g : G) (mon : monster) (p0 p1 p2 : monster_type)
    (h : roles_in_range (chimera_baseline E g mon p0 p1 p2).2.props) :
    roles_in_range (applied3 E g mon p0 p1 p2).2.props := by
  rw [applied3_props]
  exact roles_props_in_range E _ 3 _ (by decide)
    (roles_props_in_range E _ 2 _ (by decide)
      (roles_props_in_range E _ 1 _ (by decide) h))

/-- With three valid parts and every role marker of the instantiated target in
range, `define_chimera` returns. -/
theorem define_chimera_ok (E : Env G P) (g : G) (mon : monster) (p0 p1 p2 : monster_type)
    (h0 : is_valid_chimera_part E p0 = true) (h1 : is_valid_chimera_part E p1 = true)
    (h2 : is_valid_chimera_part E p2 = true)
    (h : roles_in_range (chimera_baseline E g mon p0 p1 p2).2.props) :
    ∃ r, define_chimera E g mon p0 p1 p2 = .ok r := by
  have hr := applied3_in_range E g mon p0 p1 p2 h
  obtain ⟨w, hw⟩ := get_chimera_wings_in_range E _ hr
  obtain ⟨l, hl⟩ := get_chimera_legs_in_range E _ hr
  obtain ⟨m2, hm⟩ := chimera_speed_of_roles E _ p0 w l hw hl
  rw [define_chimera_eq E g mon p0 p1 p2 h0 h1 h2, hm]
  exact ⟨_, rfl⟩

/-- The part ids read back from any result of `define_chimera`. -/
theorem define_chimera_parts (E : Env G P) (g : G) (mon : monster)
    (p0 p1 p2 : monster_type) (r : G × monster)
    (h : define_chimera E g mon p0 p1 p2 = .ok r) :
    get_chimera_part E r.2 1 = .ok p0 ∧ get_chimera_part E r.2 2 = .ok p1 ∧
      get_chimera_part E r.2 3 = .ok p2 ∧
      r.2.base_monster = p0 ∧ r.2.props "chimera_part_2" = some p1 ∧
      r.2.props "chimera_part_3" = some p2 := by
  obtain ⟨_, w, l, _, _, hr⟩ := define_chimera_result E g mon p0 p1 p2 r h
  have hb : r.2.base_monster = p0 := by rw [hr]; rfl
  have h2 : r.2.props "chimera_part_2" = some p1 := by
    rw [hr]; exact applied3_part_2 E g mon p0 p1 p2
  have h3 : r.2.props "chimera_part_3" = some p2 := by
    rw [hr]; exact applied3_part_3 E g mon p0 p1 p2
  obtain ⟨a, b, c⟩ := get_chimera_part_assembled E r.2 p0 p1 p2 hb h2 h3
  exact ⟨a, b, c, hb, h2, h3⟩

/-! ## The claims -/

/-- C1: round trip of the part ids. Whenever `define_chimera` accepts the three
parts and returns, `get_chimera_part` at 1, 2, 3 on the result returns exactly
`p0`, `p1`, `p2` in that order: `base_monster` and the two stored auxiliary ids
survive the three applications and the speed step. Equal ids are not excluded.
The call does return when the three parts are valid and the role markers of
the instantiated target are in range. -/
theorem define_chimera_part_round_trip (E : Env G P) (g : G) (mon : monster)
    (p0 p1 p2 : monster_type) :
    (is_valid_chimera_part E p0 = true → is_valid_chimera_part E p1 = true →
      is_valid_chimera_part E p2 = true →
      roles_in_range (chimera_baseline E g mon p0 p1 p2).2.props →
      ∃ r, define_chimera E g mon p0 p1 p2 = .ok r) ∧
    ∀ r, define_chimera E g mon p0 p1 p2 = .ok r →
      get_chimera_part E r.2 1 = .ok p0 ∧ get_chimera_part E r.2 2 = .ok p1 ∧
      get_chimera_part E r.2 3 = .ok p2 ∧
      r.2.base_monster = p0 ∧ r.2.props "chimera_part_2" = some p1 ∧
      r.2.props "chimera_part_3" = some p2 := by
  exact ⟨define_chimera_ok E g mon p0 p1 p2,
    fun r h => define_chimera_parts E g mon p0 p1 p2 r h⟩

/-- Witness for C1: in the sample environment the parts 5, 5, 2 (two equal ids)
are accepted and read back in order. -/
theorem define_chimera_part_round_trip_witness :
    define_chimera sampleEnv 0 blank_monster 5 5 2 = .ok (sample_chimera 5 5 2) ∧
    get_chimera_part sampleEnv (sample_chimera 5 5 2).2 1 = .ok 5 ∧
    get_chimera_part sampleEnv (sample_chimera 5 5 2).2 2 = .ok 5 ∧
    get_chimera_part sampleEnv (sample_chimera 5 5 2).2 3 = .ok 2 :=
  have h := (define_chimera_part_round_trip sampleEnv 0 blank_monster 5 5 2).2
    (sample_chimera 5 5 2) rfl
  ⟨rfl, h.1, h.2.1, h.2.2.1⟩

/-- C2: composite speed rule. On any result of `define_chimera`, with `wings`
the value of `get_chimera_wings` and `legs` the value of `get_chimera_legs`
replaced by `p0` when it is `MONS_NO_MONSTER`: if `wings` is not
`MONS_NO_MONSTER` and differs from `legs`, the speed is the truncating average
of the two base speeds; otherwise, if `legs` differs from `p0`, it is the base
speed of `legs`; otherwise it is the speed left by the instantiation of `p0`.
The call returns for valid parts with in-range role markers. -/
theorem define_chimera_speed_rule (E : Env G P) (g : G) (mon : monster)
    (p0 p1 p2 : monster_type) :
    (is_valid_chimera_part E p0 = true → is_valid_chimera_part E p1 = true →
      is_valid_chimera_part E p2 = true →
      roles_in_range (chimera_baseline E g mon p0 p1 p2).2.props →
      ∃ r, define_chimera E g mon p0 p1 p2 = .ok r) ∧
    ∀ r, define_chimera E g mon p0 p1 p2 = .ok r →
      ∃ wings legs0, get_chimera_wings E r.2 = .ok wings ∧
        get_chimera_legs E r.2 = .ok legs0 ∧
        r.2.speed =
          (if wings ≠ E.MONS_NO_MONSTER ∧
              wings ≠ (if legs0 = E.MONS_NO_MONSTER then p0 else legs0) then
            Int.tdiv (E.mons_class_base_speed (if legs0 = E.MONS_NO_MONSTER then p0 else legs0)
              + E.mons_class_base_speed wings) 2
          else if (if legs0 = E.MONS_NO_MONSTER then p0 else legs0) ≠ p0 then
            E.mons_class_base_speed (if legs0 = E.MONS_NO_MONSTER then p0 else legs0)
          else (chimera_baseline E g mon p0 p1 p2).2.speed) := by
  refine ⟨define_chimera_ok E g mon p0 p1 p2, ?_⟩
  intro r h
  obtain ⟨_, w, l, hw, hl, hr⟩ := define_chimera_result E g mon p0 p1 p2 r h
  have hb : r.2.base_monster = (applied3 E g mon p0 p1 p2).2.base_monster := by rw [hr]
  have hp : r.2.props = (applied3 E g mon p0 p1 p2).2.props := by rw [hr]
  refine ⟨w, l, ?_, ?_, ?_⟩
  · rw [get_chimera_wings_congr E _ r.2 hb hp, hw]
  · rw [get_chimera_legs_congr E _ r.2 hb hp, hl]
  · rw [hr]
    rfl

/-- Witness for C2: in the sample environment the parts 1 (clings, base speed
10), 2 and 5 (flies, base speed 14) give legs 1, wings 5 and speed 12. -/
theorem define_chimera_speed_rule_witness :
    define_chimera sampleEnv 0 blank_monster 1 2 5 = .ok (sample_chimera 1 2 5) ∧
    (∃ wings legs0, get_chimera_wings sampleEnv (sample_chimera 1 2 5).2 = .ok wings ∧
      get_chimera_legs sampleEnv (sample_chimera 1 2 5).2 = .ok legs0 ∧
      (sample_chimera 1 2 5).2.speed =
        (if wings ≠ sampleEnv.MONS_NO_MONSTER ∧
            wings ≠ (if legs0 = sampleEnv.MONS_NO_MONSTER then 1 else legs0) then
          Int.tdiv (sampleEnv.mons_class_base_speed
              (if legs0 = sampleEnv.MONS_NO_MONSTER then 1 else legs0)
            + sampleEnv.mons_class_base_speed wings) 2
        else if (if legs0 = sampleEnv.MONS_NO_MONSTER then 1 else legs0) ≠ 1 then
          sampleEnv.mons_class_base_speed
            (if legs0 = sampleEnv.MONS_NO_MONSTER then 1 else legs0)
        else (chimera_baseline sampleEnv 0 blank_monster 1 2 5).2.speed)) ∧
    get_chimera_legs sampleEnv (sample_chimera 1 2 5).2 = .ok 1 ∧
    get_chimera_wings sampleEnv (sample_chimera 1 2 5).2 = .ok 5 ∧
    sampleEnv.mons_class_base_speed 1 = 10 ∧ sampleEnv.mons_class_base_speed 5 = 14 ∧
    (sample_chimera 1 2 5).2.speed = 12 :=
  ⟨rfl,
   (define_chimera_speed_rule sampleEnv 0 blank_monster 1 2 5).2 (sample_chimera 1 2 5) rfl,
   rfl, rfl, by decide, by decide, by decide⟩

theorem define_chimera_props (E : Env G P) (g : G) (mon : monster)
    (p0 p1 p2 : monster_type) (r : G × monster)
    (h : define_chimera E g mon p0 p1 p2 = .ok r) :
    r.2.props =
      roles_props E (dummy3 E g mon p0 p1 p2) 3
        (roles_props E (dummy2 E g mon p0 p1 p2) 2
          (roles_props E (dummy1 E g mon p0 p1 p2) 1
            (chimera_baseline E g mon p0 p1 p2).2.props)) := by
  obtain ⟨_, w, l, _, _, hr⟩ := define_chimera_result E g mon p0 p1 p2 r h
  rw [hr]
  rfl

/-- The legs-role recorded by three applications on a bag without one. -/
theorem legs_role_resolution (E : Env G P) (d1 d2 d3 : monster) (p : CrawlHashTable)
    (hlegs : p "chimera_legs" = none) :
    roles_props E d3 3 (roles_props E d2 2 (roles_props E d1 1 p)) "chimera_legs" =
      (if E.is_jumpy d3 = true then some 3
       else if E.is_jumpy d2 = true then some 2
       else if E.is_jumpy d1 = true then some 1
       else if E.can_cling_to_walls d1 = true then some 1
       else if E.can_cling_to_walls d2 = true then some 2
       else if E.can_cling_to_walls d3 = true then some 3
       else none) := by
  simp only [roles_props_legs, hlegs]
  cases E.is_jumpy d1 <;> cases E.is_jumpy d2 <;> cases E.is_jumpy d3 <;>
    cases E.can_cling_to_walls d1 <;> cases E.can_cling_to_walls d2 <;>
    cases E.can_cling_to_walls d3 <;> simp

/-- C3: legs-role resolution. On a target with no legs-role recorded when the
parts are applied (none on the target as instantiated from `p0`), the legs-role
recorded after `define_chimera` is the highest-numbered part that is jumpy if
any part is; otherwise the lowest-numbered part that can cling to walls if any
can; otherwise none is recorded. In particular a jumpy part 3 gives role 3
whatever parts 1 and 2 are. The call returns for valid parts with in-range
role markers. -/
theorem define_chimera_legs_role (E : Env G P) (g : G) (mon : monster)
    (p0 p1 p2 : monster_type)
    (hlegs : (chimera_baseline E g mon p0 p1 p2).2.props "chimera_legs" = none) :
    (is_valid_chimera_part E p0 = true → is_valid_chimera_part E p1 = true →
      is_valid_chimera_part E p2 = true →
      roles_in_range (chimera_baseline E g mon p0 p1 p2).2.props →
      ∃ r, define_chimera E g mon p0 p1 p2 = .ok r) ∧
    ∀ r, define_chimera E g mon p0 p1 p2 = .ok r →
      r.2.props "chimera_legs" =
        (if E.is_jumpy (dummy3 E g mon p0 p1 p2) = true then some 3
         else if E.is_jumpy (dummy2 E g mon p0 p1 p2) = true then some 2
         else if E.is_jumpy (dummy1 E g mon p0 p1 p2) = true then some 1
         else if E.can_cling_to_walls (dummy1 E g mon p0 p1 p2) = true then some 1
         else if E.can_cling_to_walls (dummy2 E g mon p0 p1 p2) = true then some 2
         else if E.can_cling_to_walls (dummy3 E g mon p0 p1 p2) = true then some 3
         else none) := by
  refine ⟨define_chimera_ok E g mon p0 p1 p2, ?_⟩
  intro r h
  rw [define_chimera_props E g mon p0 p1 p2 r h]
  exact legs_role_resolution E _ _ _ _ hlegs

/-- Witness for C3: in the sample environment part 1 clings (type 1), part 2
does neither (type 2) and part 3 jumps (type 3); the legs-role is 3. -/
theorem define_chimera_legs_role_witness :
    (chimera_baseline sampleEnv 0 blank_monster 1 2 3).2.props "chimera_legs" = none ∧
    define_chimera sampleEnv 0 blank_monster 1 2 3 = .ok (sample_chimera 1 2 3) ∧
    (sample_chimera 1 2 3).2.props "chimera_legs" =
      (if sampleEnv.is_jumpy (dummy3 sampleEnv 0 blank_monster 1 2 3) = true then some 3
       else if sampleEnv.is_jumpy (dummy2 sampleEnv 0 blank_monster 1 2 3) = true then some 2
       else if sampleEnv.is_jumpy (dummy1 sampleEnv 0 blank_monster 1 2 3) = true then some 1
       else if sampleEnv.can_cling_to_walls (dummy1 sampleEnv 0 blank_monster 1 2 3) = true
         then some 1
       else if sampleEnv.can_cling_to_walls (dummy2 sampleEnv 0 blank_monster 1 2 3) = true
         then some 2
       else if sampleEnv.can_cling_to_walls (dummy3 sampleEnv 0 blank_monster 1 2 3) = true
         then some 3
       else none) ∧
    sampleEnv.can_cling_to_walls (dummy1 sampleEnv 0 blank_monster 1 2 3) = true ∧
    sampleEnv.is_jumpy (dummy3 sampleEnv 0 blank_monster 1 2 3) = true ∧
    (sample_chimera 1 2 3).2.props "chimera_legs" = some 3 :=
  ⟨rfl, rfl,
   (define_chimera_legs_role sampleEnv 0 blank_monster 1 2 3 rfl).2 (sample_chimera 1 2 3) rfl,
   by decide, by decide, by decide⟩

/-- The batty-role recorded by three applications on a bag without one. -/
theorem batty_role_resolution (E : Env G P) (d1 d2 d3 : monster) (p : CrawlHashTable)
    (hbatty : p "chimera_batty" = none) :
    roles_props E d3 3 (roles_props E d2 2 (roles_props E d1 1 p)) "chimera_batty" =
      (if E.mons_is_batty d3 = true then some 3
       else if E.mons_is_batty d2 = true then some 2
       else if E.mons_is_batty d1 = true then some 1
       else none) := by
  simp only [roles_props_batty, hbatty]

/-- The wings-role recorded by three applications on a bag without one. -/
theorem wings_role_resolution (E : Env G P) (d1 d2 d3 : monster) (p : CrawlHashTable)
    (hwings : p "chimera_wings" = none) :
    roles_props E d3 3 (roles_props E d2 2 (roles_props E d1 1 p)) "chimera_wings" =
      (if E.mons_is_batty d3 = false ∧ E.mons_flies d3 = true then some 3
       else if E.mons_is_batty d2 = false ∧ E.mons_flies d2 = true then some 2
       else if E.mons_is_batty d1 = false ∧ E.mons_flies d1 = true then some 1
       else none) := by
  simp only [roles_props_wings, hwings]

/-- C4: wings resolution. On a target with no batty-role and no wings-role
recorded when the parts are applied, `get_chimera_wings` on the result returns
the id of the highest-numbered batty part if any part is batty; otherwise the
id of the highest-numbered flying part if any; otherwise `MONS_NO_MONSTER`.
`chimera_is_batty` holds exactly when some part is batty. A batty part 2 with
a flying, not batty part 3 gives part 2's id, whatever part 1 is. The call
returns for valid parts with in-range role markers. -/
theorem define_chimera_wings_resolution (E : Env G P) (g : G) (mon : monster)
    (p0 p1 p2 : monster_type)
    (hbatty : (chimera_baseline E g mon p0 p1 p2).2.props "chimera_batty" = none)
    (hwings : (chimera_baseline E g mon p0 p1 p2).2.props "chimera_wings" = none) :
    (is_valid_chimera_part E p0 = true → is_valid_chimera_part E p1 = true →
      is_valid_chimera_part E p2 = true →
      roles_in_range (chimera_baseline E g mon p0 p1 p2).2.props →
      ∃ r, define_chimera E g mon p0 p1 p2 = .ok r) ∧
    ∀ r, define_chimera E g mon p0 p1 p2 = .ok r →
      get_chimera_wings E r.2 = .ok
        (if E.mons_is_batty (dummy3 E g mon p0 p1 p2) = true then p2
         else if E.mons_is_batty (dummy2 E g mon p0 p1 p2) = true then p1
         else if E.mons_is_batty (dummy1 E g mon p0 p1 p2) = true then p0
         else if E.mons_flies (dummy3 E g mon p0 p1 p2) = true then p2
         else if E.mons_flies (dummy2 E g mon p0 p1 p2) = true then p1
         else if E.mons_flies (dummy1 E g mon p0 p1 p2) = true then p0
         else E.MONS_NO_MONSTER) ∧
      chimera_is_batty r.2 =
        (E.mons_is_batty (dummy1 E g mon p0 p1 p2) ||
         E.mons_is_batty (dummy2 E g mon p0 p1 p2) ||
         E.mons_is_batty (dummy3 E g mon p0 p1 p2)) ∧
      (E.mons_is_batty (dummy2 E g mon p0 p1 p2) = true →
        E.mons_is_batty (dummy3 E g mon p0 p1 p2) = false →
        E.mons_flies (dummy3 E g mon p0 p1 p2) = true →
        get_chimera_wings E r.2 = .ok p1 ∧ chimera_is_batty r.2 = true) := by
  refine ⟨define_chimera_ok E g mon p0 p1 p2, ?_⟩
  intro r h
  have hp := define_chimera_props E g mon p0 p1 p2 r h
  have hB := batty_role_resolution E (dummy1 E g mon p0 p1 p2) (dummy2 E g mon p0 p1 p2)
    (dummy3 E g mon p0 p1 p2) _ hbatty
  have hW := wings_role_resolution E (dummy1 E g mon p0 p1 p2) (dummy2 E g mon p0 p1 p2)
    (dummy3 E g mon p0 p1 p2) _ hwings
  rw [← hp] at hB hW
  obtain ⟨g1, g2, g3, -, -, -⟩ := define_chimera_parts E g mon p0 p1 p2 r h
  unfold get_chimera_wings chimera_is_batty props_exists props_get_int
  rw [hB, hW]
  cases E.mons_is_batty (dummy1 E g mon p0 p1 p2) <;>
    cases E.mons_is_batty (dummy2 E g mon p0 p1 p2) <;>
    cases E.mons_is_batty (dummy3 E g mon p0 p1 p2) <;>
    cases E.mons_flies (dummy1 E g mon p0 p1 p2) <;>
    cases E.mons_flies (dummy2 E g mon p0 p1 p2) <;>
    cases E.mons_flies (dummy3 E g mon p0 p1 p2) <;>
    simp [g1, g2, g3]

/-- Witness for C4: in the sample environment part 2 is batty (type 4) and
part 3 flies without being batty (type 5); the wings are part 2's id. -/
theorem define_chimera_wings_resolution_witness :
    (chimera_baseline sampleEnv 0 blank_monster 1 4 5).2.props "chimera_batty" = none ∧
    (chimera_baseline sampleEnv 0 blank_monster 1 4 5).2.props "chimera_wings" = none ∧
    define_chimera sampleEnv 0 blank_monster 1 4 5 = .ok (sample_chimera 1 4 5) ∧
    get_chimera_wings sampleEnv (sample_chimera 1 4 5).2 = .ok 4 ∧
    chimera_is_batty (sample_chimera 1 4 5).2 = true :=
  ⟨rfl, rfl, rfl,
   ((define_chimera_wings_resolution sampleEnv 0 blank_monster 1 4 5 rfl rfl).2
      (sample_chimera 1 4 5) rfl).2.2 (by decide) (by decide) (by decide)⟩

/-! ## Spell slots -/

theorem merge_slot_apply (E : Env G P) (d : monster) (s : Fin 6) (f : monster_spells)
    (j : Fin 6) :
    merge_slot E d s f j =
      if j = s ∧ f s = E.SPELL_NO_SPELL ∧ d.spells s ≠ E.SPELL_NO_SPELL then d.spells s
      else f j := by
  unfold merge_slot
  by_cases hc : f s = E.SPELL_NO_SPELL ∧ d.spells s ≠ E.SPELL_NO_SPELL
  · by_cases hj : j = s
    · simp [hc, hj]
    · simp [hc, hj]
  · rw [if_neg hc, if_neg (fun h => hc h.2)]

theorem merged_spells_apply (E : Env G P) (d : monster) (slot : Fin 6) (f : monster_spells)
    (j : Fin 6) (hslot : slot = 3 ∨ slot = 4) :
    merged_spells E d slot f j =
      if j = slot then (if d.spells 0 ≠ E.SPELL_NO_SPELL then d.spells 0 else f j)
      else if (j = 1 ∨ j = 2 ∨ j = 5) ∧ f j = E.SPELL_NO_SPELL ∧
          d.spells j ≠ E.SPELL_NO_SPELL then d.spells j
      else f j := by
  unfold merged_spells
  simp only [merge_slot_apply]
  by_cases h0 : d.spells 0 = E.SPELL_NO_SPELL
  · rcases hslot with hs | hs <;> subst hs <;>
      fin_cases j <;> simp [h0]
  · rcases hslot with hs | hs <;> subst hs <;>
      fin_cases j <;> simp [h0]

theorem applied3_spells (E : Env G P) (g : G) (mon : monster) (p0 p1 p2 : monster_type) :
    (applied3 E g mon p0 p1 p2).2.spells =
      merged_spells E (dummy3 E g mon p0 p1 p2) 4
        (merged_spells E (dummy2 E g mon p0 p1 p2) 3
          (chimera_baseline E g mon p0 p1 p2).2.spells) := rfl

theorem define_chimera_spells (E : Env G P) (g : G) (mon : monster)
    (p0 p1 p2 : monster_type) (r : G × monster)
    (h : define_chimera E g mon p0 p1 p2 = .ok r) :
    r.2.spells =
      merged_spells E (dummy3 E g mon p0 p1 p2) 4
        (merged_spells E (dummy2 E g mon p0 p1 p2) 3
          (chimera_baseline E g mon p0 p1 p2).2.spells) := by
  obtain ⟨_, w, l, _, _, hr⟩ := define_chimera_result E g mon p0 p1 p2 r h
  rw [hr]
  rfl

/-- C5: empty-only spell merge. For each special slot `s` among 1, 2 and 5 the
slot of the assembled monster is the slot left by the instantiation of `p0` if
that is not `SPELL_NO_SPELL`; otherwise the slot `s` of the temporary monster
of part 2 if that is not `SPELL_NO_SPELL`; otherwise the slot `s` of the
temporary monster of part 3. The call returns for valid parts with in-range
role markers. -/
theorem define_chimera_special_slots (E : Env G P) (g : G) (mon : monster)
    (p0 p1 p2 : monster_type) :
    (is_valid_chimera_part E p0 = true → is_valid_chimera_part E p1 = true →
      is_valid_chimera_part E p2 = true →
      roles_in_range (chimera_baseline E g mon p0 p1 p2).2.props →
      ∃ r, define_chimera E g mon p0 p1 p2 = .ok r) ∧
    ∀ r, define_chimera E g mon p0 p1 p2 = .ok r →
      ∀ s : Fin 6, s = 1 ∨ s = 2 ∨ s = 5 →
        r.2.spells s =
          (if (chimera_baseline E g mon p0 p1 p2).2.spells s ≠ E.SPELL_NO_SPELL then
            (chimera_baseline E g mon p0 p1 p2).2.spells s
          else if (dummy2 E g mon p0 p1 p2).spells s ≠ E.SPELL_NO_SPELL then
            (dummy2 E g mon p0 p1 p2).spells s
          else (dummy3 E g mon p0 p1 p2).spells s) := by
  refine ⟨define_chimera_ok E g mon p0 p1 p2, ?_⟩
  intro r h s hs
  rw [define_chimera_spells E g mon p0 p1 p2 r h,
    merged_spells_apply E _ 4 _ s (Or.inr rfl), merged_spells_apply E _ 3 _ s (Or.inl rfl)]
  generalize (chimera_baseline E g mon p0 p1 p2).2.spells = b
  generalize dummy2 E g mon p0 p1 p2 = d2
  generalize dummy3 E g mon p0 p1 p2 = d3
  have h4 : s ≠ 4 := by rcases hs with h | h | h <;> subst h <;> decide
  have h3 : s ≠ 3 := by rcases hs with h | h | h <;> subst h <;> decide
  simp only [h3, h4, hs, if_false, true_and]
  by_cases hb : b s = E.SPELL_NO_SPELL <;> by_cases h2 : d2.spells s = E.SPELL_NO_SPELL <;>
    by_cases h3 : d3.spells s = E.SPELL_NO_SPELL <;> simp [hb, h2, h3]

/-- Witness for C5: in the sample environment part 1 (type 1) has no spells,
part 2 (type 2) has spell 72 in slot 1 and part 3 (type 5) spell 85 in slot 5. -/
theorem define_chimera_special_slots_witness :
    define_chimera sampleEnv 0 blank_monster 1 2 5 = .ok (sample_chimera 1 2 5) ∧
    (chimera_baseline sampleEnv 0 blank_monster 1 2 5).2.spells 1 = sampleEnv.SPELL_NO_SPELL ∧
    (dummy2 sampleEnv 0 blank_monster 1 2 5).spells 1 = 72 ∧
    (sample_chimera 1 2 5).2.spells 1 = 72 ∧
    (sample_chimera 1 2 5).2.spells 1 =
      (if (chimera_baseline sampleEnv 0 blank_monster 1 2 5).2.spells 1
            ≠ sampleEnv.SPELL_NO_SPELL then
        (chimera_baseline sampleEnv 0 blank_monster 1 2 5).2.spells 1
      else if (dummy2 sampleEnv 0 blank_monster 1 2 5).spells 1
            ≠ sampleEnv.SPELL_NO_SPELL then
        (dummy2 sampleEnv 0 blank_monster 1 2 5).spells 1
      else (dummy3 sampleEnv 0 blank_monster 1 2 5).spells 1) :=
  ⟨rfl, by decide, by decide, by decide,
   (define_chimera_special_slots sampleEnv 0 blank_monster 1 2 5).2
     (sample_chimera 1 2 5) rfl 1 (Or.inl rfl)⟩

/-- C6, counterexample: the misc slot is not `i + 1`. In the sample environment
the part of type 2 has primary spell 71. Applied at index 1 (part number 2) it
leaves slot 2 empty and puts 71 into slot 3; in the chimera of parts 1, 2, 5
slot 2 is empty, slot 3 holds part 2's spell 71 and slot 4 part 3's spell 81. -/
theorem misc_slot_index_plus_one_counterexample :
    apply_chimera_part sampleEnv 0 blank_monster 2 2 = .ok (sample_applied 2 2) ∧
    (make_dummy sampleEnv 0 2).2.spells 0 = 71 ∧
    (71 : spell_type) ≠ sampleEnv.SPELL_NO_SPELL ∧
    (sample_applied 2 2).2.spells 2 ≠ 71 ∧
    (sample_applied 2 2).2.spells 3 = 71 ∧
    define_chimera sampleEnv 0 blank_monster 1 2 5 = .ok (sample_chimera 1 2 5) ∧
    (dummy2 sampleEnv 0 blank_monster 1 2 5).spells 0 = 71 ∧
    (dummy3 sampleEnv 0 blank_monster 1 2 5).spells 0 = 81 ∧
    (sample_chimera 1 2 5).2.spells 2 ≠ 71 ∧
    (sample_chimera 1 2 5).2.spells 3 ≠ 81 ∧
    (sample_chimera 1 2 5).2.spells 3 = 71 ∧
    (sample_chimera 1 2 5).2.spells 4 = 81 :=
  ⟨rfl, by decide, by decide, by decide, by decide, rfl, by decide, by decide, by decide,
   by decide, by decide, by decide⟩

/-- C6, amended: the misc slot is `i + 2`. Applying a part that is not
zombified and whose temporary monster has a primary spell (slot 0 not
`SPELL_NO_SPELL`) at 0-based index `i` in {1, 2}, that is with part number
`i + 1`, returns and leaves that spell in slot `i + 2` of the target: part 2's
lands in slot 3 and part 3's in slot 4. -/
theorem apply_chimera_part_misc_slot (E : Env G P) (g : G) (mon : monster)
    (part : monster_type) (i : Int) (hi : i = 1 ∨ i = 2)
    (hz : E.mons_class_is_zombified part = false)
    (h0 : (make_dummy E g part).2.spells 0 ≠ E.SPELL_NO_SPELL) :
    ∃ (r : G × monster) (slot : Fin 6),
      apply_chimera_part E g mon part (i + 1) = .ok r ∧ (slot.val : Int) = i + 2 ∧
      r.2.spells slot = (make_dummy E g part).2.spells 0 := by
  rcases hi with hi | hi <;> subst hi
  · refine ⟨_, 3, apply_chimera_part_two E g mon part hz, rfl, ?_⟩
    show merged_spells E _ 3 _ 3 = _
    rw [merged_spells_apply E _ 3 _ 3 (Or.inl rfl)]
    simp [h0]
  · refine ⟨_, 4, apply_chimera_part_three E g mon part hz, rfl, ?_⟩
    show merged_spells E _ 4 _ 4 = _
    rw [merged_spells_apply E _ 4 _ 4 (Or.inr rfl)]
    simp [h0]

/-- Witness for C6 (amended): in the sample environment the part of type 2,
applied at index 1, puts its primary spell 71 into slot 3. -/
theorem apply_chimera_part_misc_slot_witness :
    sampleEnv.mons_class_is_zombified 2 = false ∧
    (make_dummy sampleEnv 0 2).2.spells 0 ≠ sampleEnv.SPELL_NO_SPELL ∧
    ∃ (r : Nat × monster) (slot : Fin 6),
      apply_chimera_part sampleEnv 0 blank_monster 2 (1 + 1) = .ok r ∧
      (slot.val : Int) = 1 + 2 ∧
      r.2.spells slot = (make_dummy sampleEnv 0 2).2.spells 0 :=
  ⟨rfl, by decide,
   apply_chimera_part_misc_slot sampleEnv 0 blank_monster 2 1 (Or.inl rfl) rfl (by decide)⟩

/-! ## Defence stats -/

theorem applied3_ac (E : Env G P) (g : G) (mon : monster) (p0 p1 p2 : monster_type) :
    (applied3 E g mon p0 p1 p2).2.ac = (dummy1 E g mon p0 p1 p2).ac := rfl

theorem applied3_ev (E : Env G P) (g : G) (mon : monster) (p0 p1 p2 : monster_type) :
    (applied3 E g mon p0 p1 p2).2.ev =
      if takes_legs E (dummy3 E g mon p0 p1 p2)
          (roles_props E (dummy2 E g mon p0 p1 p2) 2
            (roles_props E (dummy1 E g mon p0 p1 p2) 1
              (chimera_baseline E g mon p0 p1 p2).2.props)) = true then
        (dummy3 E g mon p0 p1 p2).ev
      else if takes_legs E (dummy2 E g mon p0 p1 p2)
          (roles_props E (dummy1 E g mon p0 p1 p2) 1
            (chimera_baseline E g mon p0 p1 p2).2.props) = true then
        (dummy2 E g mon p0 p1 p2).ev
      else (dummy1 E g mon p0 p1 p2).ev := rfl

/-- C7: merged defence stats. On a target with no legs-role recorded when the
parts are applied, the final `ac` is the `ac` of the temporary monster of part
1, the recorded legs-role is none or one of 1, 2, 3, and the final `ev` is the
`ev` of the temporary monster of the part holding the legs-role, or of part 1
when no legs-role is recorded. The call returns for valid parts with in-range
role markers. -/
theorem define_chimera_defence (E : Env G P) (g : G) (mon : monster)
    (p0 p1 p2 : monster_type)
    (hlegs : (chimera_baseline E g mon p0 p1 p2).2.props "chimera_legs" = none) :
    (is_valid_chimera_part E p0 = true → is_valid_chimera_part E p1 = true →
      is_valid_chimera_part E p2 = true →
      roles_in_range (chimera_baseline E g mon p0 p1 p2).2.props →
      ∃ r, define_chimera E g mon p0 p1 p2 = .ok r) ∧
    ∀ r, define_chimera E g mon p0 p1 p2 = .ok r →
      r.2.ac = (dummy1 E g mon p0 p1 p2).ac ∧
      (r.2.props "chimera_legs" = none ∨ r.2.props "chimera_legs" = some 1 ∨
        r.2.props "chimera_legs" = some 2 ∨ r.2.props "chimera_legs" = some 3) ∧
      r.2.ev =
        (if r.2.props "chimera_legs" = some 1 then (dummy1 E g mon p0 p1 p2).ev
         else if r.2.props "chimera_legs" = some 2 then (dummy2 E g mon p0 p1 p2).ev
         else if r.2.props "chimera_legs" = some 3 then (dummy3 E g mon p0 p1 p2).ev
         else (dummy1 E g mon p0 p1 p2).ev) := by
  refine ⟨define_chimera_ok E g mon p0 p1 p2, ?_⟩
  intro r h
  obtain ⟨_, w, l, _, _, hr⟩ := define_chimera_result E g mon p0 p1 p2 r h
  have hac : r.2.ac = (dummy1 E g mon p0 p1 p2).ac := by rw [hr]; rfl
  have hev : r.2.ev = (applied3 E g mon p0 p1 p2).2.ev := by rw [hr]
  have hL := legs_role_resolution E (dummy1 E g mon p0 p1 p2) (dummy2 E g mon p0 p1 p2)
    (dummy3 E g mon p0 p1 p2) _ hlegs
  rw [← define_chimera_props E g mon p0 p1 p2 r h] at hL
  refine ⟨hac, ?_, ?_⟩
  · rw [hL]
    split_ifs <;> simp
  · rw [hev, applied3_ev, hL]
    simp only [takes_legs_iff, roles_props_legs, hlegs]
    cases E.is_jumpy (dummy1 E g mon p0 p1 p2) <;>
      cases E.is_jumpy (dummy2 E g mon p0 p1 p2) <;>
      cases E.is_jumpy (dummy3 E g mon p0 p1 p2) <;>
      cases E.can_cling_to_walls (dummy1 E g mon p0 p1 p2) <;>
      cases E.can_cling_to_walls (dummy2 E g mon p0 p1 p2) <;>
      cases E.can_cling_to_walls (dummy3 E g mon p0 p1 p2) <;> simp

/-- Witness for C7: in the sample environment part 1 clings (type 1, ev 4),
part 2 does neither (type 2) and part 3 jumps (type 3, ev 10): the legs-role
is 3, `ev` is part 3's and `ac` is part 1's. -/
theorem define_chimera_defence_witness :
    (chimera_baseline sampleEnv 0 blank_monster 1 2 3).2.props "chimera_legs" = none ∧
    define_chimera sampleEnv 0 blank_monster 1 2 3 = .ok (sample_chimera 1 2 3) ∧
    (sample_chimera 1 2 3).2.ac = (dummy1 sampleEnv 0 blank_monster 1 2 3).ac ∧
    (sample_chimera 1 2 3).2.props "chimera_legs" = some 3 ∧
    (dummy1 sampleEnv 0 blank_monster 1 2 3).ev = 4 ∧
    (dummy3 sampleEnv 0 blank_monster 1 2 3).ev = 10 ∧
    (sample_chimera 1 2 3).2.ev = 10 ∧
    (sample_chimera 1 2 3).2.ev =
      (if (sample_chimera 1 2 3).2.props "chimera_legs" = some 1 then
        (dummy1 sampleEnv 0 blank_monster 1 2 3).ev
       else if (sample_chimera 1 2 3).2.props "chimera_legs" = some 2 then
        (dummy2 sampleEnv 0 blank_monster 1 2 3).ev
       else if (sample_chimera 1 2 3).2.props "chimera_legs" = some 3 then
        (dummy3 sampleEnv 0 blank_monster 1 2 3).ev
       else (dummy1 sampleEnv 0 blank_monster 1 2 3).ev) :=
  have h := (define_chimera_defence sampleEnv 0 blank_monster 1 2 3 rfl).2
    (sample_chimera 1 2 3) rfl
  ⟨rfl, rfl, h.1, by decide, by decide, by decide, by decide, h.2.2⟩

/-! ## Failures -/

theorem spells_set_error (spells : monster_spells) (index : Int) (v : spell_type) (e : die)
    (h : spells_set spells index v = .error e) : e = die.range_check_error := by
  unfold spells_set at h
  split_ifs at h
  exact (Except.error.inj h).symm

theorem stage_bolt_error (E : Env G P) (d : monster) (boltslot : Int) (mon : monster)
    (e : die) (h : stage_bolt E d boltslot mon = .error e) : e = die.range_check_error := by
  unfold stage_bolt at h
  split_ifs at h
  exact spells_set_error _ _ _ e h

/-- The assertion of `apply_chimera_part` fails exactly on a zombified part. -/
theorem apply_chimera_part_assert (E : Env G P) (g : G) (mon : monster)
    (part : monster_type) (partnum : Int) :
    apply_chimera_part E g mon part partnum = .error die.ASSERT_not_zombified ↔
      E.mons_class_is_zombified part = true := by
  rw [apply_chimera_part_stages]
  cases hz : E.mons_class_is_zombified part
  · simp only [Bool.false_eq_true, if_false, iff_false]
    by_cases h1 : partnum = 1
    · simp [h1]
    · rw [if_neg h1]
      cases hb : stage_bolt E (make_dummy E g part).2 (partnum + 1)
          (stage_flag E (make_dummy E g part).2
            (stage_legs E (make_dummy E g part).2 partnum
              (stage_wings E (make_dummy E g part).2 partnum mon))) with
      | error e =>
        have := stage_bolt_error E _ _ _ e hb
        subst this
        simp
      | ok sp => simp
  · simp

theorem get_chimera_part_error (E : Env G P) (m : monster) (n : Int) (e : die)
    (h : get_chimera_part E m n = .error e) : e = die.ASSERT_RANGE := by
  unfold get_chimera_part at h
  split_ifs at h
  exact (Except.error.inj h).symm

theorem get_chimera_wings_error (E : Env G P) (m : monster) (e : die)
    (h : get_chimera_wings E m = .error e) : e = die.ASSERT_RANGE := by
  unfold get_chimera_wings at h
  split_ifs at h
  · exact get_chimera_part_error E m _ e h
  · exact get_chimera_part_error E m _ e h

theorem get_chimera_legs_error (E : Env G P) (m : monster) (e : die)
    (h : get_chimera_legs E m = .error e) : e = die.ASSERT_RANGE := by
  unfold get_chimera_legs at h
  split_ifs at h
  exact get_chimera_part_error E m _ e h

theorem chimera_speed_error (E : Env G P) (m : monster) (p0 : monster_type) (e : die)
    (h : chimera_speed E m p0 = .error e) : e = die.ASSERT_RANGE := by
  unfold chimera_speed at h
  cases hw : get_chimera_wings E m with
  | error e2 =>
    simp only [hw] at h
    rw [← Except.error.inj h]
    exact get_chimera_wings_error E m e2 hw
  | ok w =>
    cases hl : get_chimera_legs E m with
    | error e2 =>
      simp only [hw, hl] at h
      rw [← Except.error.inj h]
      exact get_chimera_legs_error E m e2 hl
    | ok l =>
      simp only [hw, hl] at h
      split_ifs at h

/-- With three valid parts the only assertion `define_chimera` can fail is the
range assertion of the introspection. -/
theorem define_chimera_error (E : Env G P) (g : G) (mon : monster) (p0 p1 p2 : monster_type)
    (h0 : is_valid_chimera_part E p0 = true) (h1 : is_valid_chimera_part E p1 = true)
    (h2 : is_valid_chimera_part E p2 = true) (e : die)
    (h : define_chimera E g mon p0 p1 p2 = .error e) : e = die.ASSERT_RANGE := by
  rw [define_chimera_eq E g mon p0 p1 p2 h0 h1 h2] at h
  cases hs : chimera_speed E (applied3 E g mon p0 p1 p2).2 p0 with
  | error e2 =>
    simp only [hs] at h
    rw [← Except.error.inj h]
    exact chimera_speed_error E _ p0 e2 hs
  | ok m => simp [hs] at h

/-- C8: no precondition failure for filtered parts. The assertion of
`apply_chimera_part` fails exactly when the part is zombified. When none of
three parts is bad, each is valid and not zombified, the three applications
made by `define_chimera` all return, `define_chimera` can only abort on the
range assertion of the introspection, and it returns when the role markers of
the instantiated target are in range. -/
theorem define_chimera_no_precondition_failure (E : Env G P) :
    (∀ g mon part partnum,
      apply_chimera_part E g mon part partnum = .error die.ASSERT_not_zombified ↔
        E.mons_class_is_zombified part = true) ∧
    ∀ t1 t2 t3, is_bad_chimera_part E t1 = false → is_bad_chimera_part E t2 = false →
      is_bad_chimera_part E t3 = false →
      (is_valid_chimera_part E t1 = true ∧ is_valid_chimera_part E t2 = true ∧
        is_valid_chimera_part E t3 = true) ∧
      (E.mons_class_is_zombified t1 = false ∧ E.mons_class_is_zombified t2 = false ∧
        E.mons_class_is_zombified t3 = false) ∧
      ∀ g mon,
        apply_chimera_part E (chimera_baseline E g mon t1 t2 t3).1
          (chimera_baseline E g mon t1 t2 t3).2 t1 1 = .ok (applied1 E g mon t1 t2 t3) ∧
        apply_chimera_part E (applied1 E g mon t1 t2 t3).1 (applied1 E g mon t1 t2 t3).2 t2 2
          = .ok (applied2 E g mon t1 t2 t3) ∧
        apply_chimera_part E (applied2 E g mon t1 t2 t3).1 (applied2 E g mon t1 t2 t3).2 t3 3
          = .ok (applied3 E g mon t1 t2 t3) ∧
        (∀ e, define_chimera E g mon t1 t2 t3 = .error e → e = die.ASSERT_RANGE) ∧
        (roles_in_range (chimera_baseline E g mon t1 t2 t3).2.props →
          ∃ r, define_chimera E g mon t1 t2 t3 = .ok r) := by
  refine ⟨apply_chimera_part_assert E, ?_⟩
  intro t1 t2 t3 b1 b2 b3
  have v1 := not_bad_valid E t1 b1
  have v2 := not_bad_valid E t2 b2
  have v3 := not_bad_valid E t3 b3
  have z1 := valid_not_zombified E t1 v1
  have z2 := valid_not_zombified E t2 v2
  have z3 := valid_not_zombified E t3 v3
  refine ⟨⟨v1, v2, v3⟩, ⟨z1, z2, z3⟩, ?_⟩
  intro g mon
  exact ⟨apply_chimera_part_one E _ _ t1 z1, apply_chimera_part_two E _ _ t2 z2,
    apply_chimera_part_three E _ _ t3 z3,
    fun e h => define_chimera_error E g mon t1 t2 t3 v1 v2 v3 e h,
    define_chimera_ok E g mon t1 t2 t3 v1 v2 v3⟩

/-- Witness for C8: in the sample environment the types 1, 2 and 5 are not bad
and `define_chimera` returns on them; the zombie type 6 trips the assertion of
`apply_chimera_part`. -/
theorem define_chimera_no_precondition_failure_witness :
    is_bad_chimera_part sampleEnv 1 = false ∧ is_bad_chimera_part sampleEnv 2 = false ∧
    is_bad_chimera_part sampleEnv 5 = false ∧
    (∃ r, define_chimera sampleEnv 0 blank_monster 1 2 5 = .ok r) ∧
    apply_chimera_part sampleEnv 0 blank_monster 6 2 = .error die.ASSERT_not_zombified :=
  ⟨rfl, rfl, rfl,
   (((define_chimera_no_precondition_failure sampleEnv).2 1 2 5 rfl rfl rfl).2.2
      0 blank_monster).2.2.2.2 (roles_in_range_of_none _ rfl rfl rfl),
   ((define_chimera_no_precondition_failure sampleEnv).1 0 blank_monster 6 2).mpr rfl⟩

/-- C9: the candidate filter. `is_valid_chimera_part` is false exactly on
`MONS_NO_MONSTER`, `MONS_CHIMERA`, an invalid type, a zombified type or a type
flagged `M_NO_GEN_DERIVED`. `is_bad_chimera_part` is true exactly when the part
is not valid, or is a hybrid, or is zombified, or is not its own species, or
has intelligence below `I_INSECT` or above `I_NORMAL`, or is unique; a part
that passes every other test with intelligence anywhere from `I_INSECT` to
`I_NORMAL`, both ends included, is not bad. Dropping the zombified disjunct of
`is_bad_chimera_part` gives the same predicate. -/
theorem chimera_part_filter (E : Env G P) (t : monster_type) :
    (is_valid_chimera_part E t = false ↔
      (t = E.MONS_NO_MONSTER ∨ t = E.MONS_CHIMERA ∨ E.invalid_monster_type t = true ∨
        E.mons_class_is_zombified t = true ∨
        E.mons_class_flag t E.M_NO_GEN_DERIVED = true)) ∧
    (is_bad_chimera_part E t = true ↔
      (is_valid_chimera_part E t = false ∨ E.mons_class_is_hybrid t = true ∨
        E.mons_class_is_zombified t = true ∨ E.mons_species t ≠ t ∨
        E.mons_class_intel t < E.I_INSECT ∨ E.mons_class_intel t > E.I_NORMAL ∨
        E.mons_is_unique t = true)) ∧
    (is_valid_chimera_part E t = true → E.mons_class_is_hybrid t = false →
      E.mons_species t = t → E.mons_is_unique t = false →
      E.I_INSECT ≤ E.mons_class_intel t → E.mons_class_intel t ≤ E.I_NORMAL →
      is_bad_chimera_part E t = false) ∧
    is_bad_chimera_part E t =
      ((!is_valid_chimera_part E t)
        || E.mons_class_is_hybrid t
        || E.mons_species t != t
        || decide (E.mons_class_intel t > E.I_NORMAL)
        || decide (E.mons_class_intel t < E.I_INSECT)
        || E.mons_is_unique t) := by
  refine ⟨?_, ?_, ?_, ?_⟩
  · unfold is_valid_chimera_part
    simp only [Bool.not_eq_false', Bool.or_eq_true, beq_iff_eq]
    tauto
  · unfold is_bad_chimera_part
    simp only [Bool.or_eq_true, Bool.not_eq_true', bne_iff_ne, decide_eq_true_eq, gt_iff_lt,
      ne_eq]
    tauto
  · intro hv hh hs hu hlo hhi
    unfold is_bad_chimera_part
    have hz := valid_not_zombified E t hv
    have h1 : ¬ (E.mons_class_intel t > E.I_NORMAL) := by omega
    have h2 : ¬ (E.mons_class_intel t < E.I_INSECT) := by omega
    simp [hv, hh, hs, hu, hz, h1, h2]
  · unfold is_bad_chimera_part
    cases hz : E.mons_class_is_zombified t
    · simp
    · have hv : is_valid_chimera_part E t = false := by
        unfold is_valid_chimera_part
        simp [hz]
      simp [hv]

/-- Example for C9: in the sample environment the zombie type 6 and the chimera
type 50 are not valid, type 1 is valid and not bad. -/
theorem chimera_part_filter_example :
    is_valid_chimera_part sampleEnv 6 = false ∧ is_valid_chimera_part sampleEnv 50 = false ∧
    is_valid_chimera_part sampleEnv 1000 = false ∧
    is_valid_chimera_part sampleEnv 1 = true ∧ is_bad_chimera_part sampleEnv 1 = false ∧
    is_bad_chimera_part sampleEnv 6 = true :=
  ⟨rfl, rfl, rfl, rfl, rfl, rfl⟩

/-! ## Selection -/

theorem pick_chimera_part_none (E : Env G P) (g : G) (place : level_id) (picker : P) :
    (pick_chimera_part E g place picker).2 = E.MONS_0 ↔
      chimera_slot_fails E g place picker := by
  unfold pick_chimera_part chimera_slot_fails
  by_cases h : (E.pick_monster g place picker (is_bad_chimera_part E)).2 = E.MONS_0
  · simp [h]
  · simp [h]

theorem define_chimera_for_place_fail0 (E : Env G P) (g : G) (mon : monster)
    (place : level_id) (ct : monster_type) (pos : coord_def)
    (h0 : (place_pick0 E g place pos).2 = E.MONS_0) :
    define_chimera_for_place E g mon place ct pos =
      .ok ((place_pick0 E g place pos).1, mon, false) := by
  unfold place_pick0 at h0
  unfold define_chimera_for_place place_pick0
  simp only [h0, if_true]

theorem define_chimera_for_place_fail1 (E : Env G P) (g : G) (mon : monster)
    (place : level_id) (ct : monster_type) (pos : coord_def)
    (h0 : (place_pick0 E g place pos).2 ≠ E.MONS_0)
    (h1 : (place_pick1 E g place pos).2 = E.MONS_0) :
    define_chimera_for_place E g mon place ct pos =
      .ok ((place_pick1 E g place pos).1, mon, false) := by
  unfold place_pick1 at h1
  unfold place_pick0 at h0 h1
  unfold define_chimera_for_place place_pick1 place_pick0
  simp only [h0, h1, if_true, if_false]

theorem define_chimera_for_place_fail2 (E : Env G P) (g : G) (mon : monster)
    (place : level_id) (ct : monster_type) (pos : coord_def)
    (h0 : (place_pick0 E g place pos).2 ≠ E.MONS_0)
    (h1 : (place_pick1 E g place pos).2 ≠ E.MONS_0)
    (h2 : (place_pick2 E g place pos).2 = E.MONS_0) :
    define_chimera_for_place E g mon place ct pos =
      .ok ((place_pick2 E g place pos).1, mon, false) := by
  unfold place_pick2 at h2
  unfold place_pick1 at h1 h2
  unfold place_pick0 at h0 h1 h2
  unfold define_chimera_for_place place_pick2 place_pick1 place_pick0
  simp only [h0, h1, h2, if_true, if_false]

theorem define_chimera_for_place_picked (E : Env G P) (g : G) (mon : monster)
    (place : level_id) (ct : monster_type) (pos : coord_def)
    (h0 : (place_pick0 E g place pos).2 ≠ E.MONS_0)
    (h1 : (place_pick1 E g place pos).2 ≠ E.MONS_0)
    (h2 : (place_pick2 E g place pos).2 ≠ E.MONS_0) :
    define_chimera_for_place E g mon place ct pos =
      match define_chimera E (place_pick2 E g place pos).1 mon (place_pick0 E g place pos).2
          (place_pick1 E g place pos).2 (place_pick2 E g place pos).2 with
      | .error e => .error e
      | .ok gm => .ok (gm.1, gm.2, true) := by
  unfold place_pick2 at h2
  unfold place_pick1 at h1 h2
  unfold place_pick0 at h0 h1 h2
  unfold define_chimera_for_place place_pick2 place_pick1 place_pick0
  simp only [h0, h1, h2, if_false]

/-- C10: selection failure is all-or-nothing. `define_chimera_for_place`
returns false exactly when some slot, the three taken in order, fails (both
its branch-local pick and its all-branches pick return `MONS_0`). It then
returns the target monster unchanged, in the state left by the picks of the
failing slot: `define_chimera` has not run, even when earlier slots had found
a part. When it returns true, the three picked parts are not `MONS_0` and the
returned monster is the result of `define_chimera` on them; it aborts only
when `define_chimera` on three picked parts does. -/
theorem define_chimera_for_place_all_or_nothing (E : Env G P) (g : G) (mon : monster)
    (place : level_id) (ct : monster_type) (pos : coord_def) :
    ((∃ g2 mon2, define_chimera_for_place E g mon place ct pos = .ok (g2, mon2, false)) ↔
      (chimera_slot_fails E g place (E.positioned_monster_picker pos) ∨
       ((place_pick0 E g place pos).2 ≠ E.MONS_0 ∧
         chimera_slot_fails E (place_pick0 E g place pos).1 place
           (E.positioned_monster_picker pos)) ∨
       ((place_pick0 E g place pos).2 ≠ E.MONS_0 ∧
         (place_pick1 E g place pos).2 ≠ E.MONS_0 ∧
         chimera_slot_fails E (place_pick1 E g place pos).1 place
           (E.positioned_monster_picker pos)))) ∧
    (chimera_slot_fails E g place (E.positioned_monster_picker pos) →
      define_chimera_for_place E g mon place ct pos =
        .ok ((place_pick0 E g place pos).1, mon, false)) ∧
    ((place_pick0 E g place pos).2 ≠ E.MONS_0 →
      chimera_slot_fails E (place_pick0 E g place pos).1 place
        (E.positioned_monster_picker pos) →
      define_chimera_for_place E g mon place ct pos =
        .ok ((place_pick1 E g place pos).1, mon, false)) ∧
    ((place_pick0 E g place pos).2 ≠ E.MONS_0 →
      (place_pick1 E g place pos).2 ≠ E.MONS_0 →
      chimera_slot_fails E (place_pick1 E g place pos).1 place
        (E.positioned_monster_picker pos) →
      define_chimera_for_place E g mon place ct pos =
        .ok ((place_pick2 E g place pos).1, mon, false)) ∧
    (∀ g2 mon2, define_chimera_for_place E g mon place ct pos = .ok (g2, mon2, false) →
      mon2 = mon) ∧
    (∀ g2 mon2, define_chimera_for_place E g mon place ct pos = .ok (g2, mon2, true) →
      (place_pick0 E g place pos).2 ≠ E.MONS_0 ∧ (place_pick1 E g place pos).2 ≠ E.MONS_0 ∧
      (place_pick2 E g place pos).2 ≠ E.MONS_0 ∧
      define_chimera E (place_pick2 E g place pos).1 mon (place_pick0 E g place pos).2
        (place_pick1 E g place pos).2 (place_pick2 E g place pos).2 = .ok (g2, mon2)) ∧
    (∀ e, define_chimera_for_place E g mon place ct pos = .error e →
      (place_pick0 E g place pos).2 ≠ E.MONS_0 ∧ (place_pick1 E g place pos).2 ≠ E.MONS_0 ∧
      (place_pick2 E g place pos).2 ≠ E.MONS_0 ∧
      define_chimera E (place_pick2 E g place pos).1 mon (place_pick0 E g place pos).2
        (place_pick1 E g place pos).2 (place_pick2 E g place pos).2 = .error e) := by
  have e0 : (place_pick0 E g place pos).2 = E.MONS_0 ↔ _ :=
    pick_chimera_part_none E g place (E.positioned_monster_picker pos)
  have e1 : (place_pick1 E g place pos).2 = E.MONS_0 ↔ _ :=
    pick_chimera_part_none E (place_pick0 E g place pos).1 place
      (E.positioned_monster_picker pos)
  have e2 : (place_pick2 E g place pos).2 = E.MONS_0 ↔ _ :=
    pick_chimera_part_none E (place_pick1 E g place pos).1 place
      (E.positioned_monster_picker pos)
  rw [← e0, ← e1, ← e2]
  by_cases h0 : (place_pick0 E g place pos).2 = E.MONS_0
  · have hr := define_chimera_for_place_fail0 E g mon place ct pos h0
    rw [hr]
    refine ⟨⟨fun _ => Or.inl h0, fun _ => ⟨_, _, rfl⟩⟩, fun _ => rfl,
      fun c => absurd h0 c, fun c => absurd h0 c, ?_, ?_, ?_⟩
    · intro g2 mon2 h
      simp only [Except.ok.injEq, Prod.mk.injEq] at h
      exact h.2.1.symm
    · intro g2 mon2 h
      simp at h
    · intro e h
      simp at h
  · by_cases h1 : (place_pick1 E g place pos).2 = E.MONS_0
    · have hr := define_chimera_for_place_fail1 E g mon place ct pos h0 h1
      rw [hr]
      refine ⟨⟨fun _ => Or.inr (Or.inl ⟨h0, h1⟩), fun _ => ⟨_, _, rfl⟩⟩,
        fun c => absurd c h0, fun _ _ => rfl, fun _ c => absurd h1 c, ?_, ?_, ?_⟩
      · intro g2 mon2 h
        simp only [Except.ok.injEq, Prod.mk.injEq] at h
        exact h.2.1.symm
      · intro g2 mon2 h
        simp at h
      · intro e h
        simp at h
    · by_cases h2 : (place_pick2 E g place pos).2 = E.MONS_0
      · have hr := define_chimera_for_place_fail2 E g mon place ct pos h0 h1 h2
        rw [hr]
        refine ⟨⟨fun _ => Or.inr (Or.inr ⟨h0, h1, h2⟩), fun _ => ⟨_, _, rfl⟩⟩,
          fun c => absurd c h0, fun _ c => absurd c h1, fun _ _ _ => rfl, ?_, ?_, ?_⟩
        · intro g2 mon2 h
          simp only [Except.ok.injEq, Prod.mk.injEq] at h
          exact h.2.1.symm
        · intro g2 mon2 h
          simp at h
        · intro e h
          simp at h
      · have hr := define_chimera_for_place_picked E g mon place ct pos h0 h1 h2
        rw [hr]
        cases hd : define_chimera E (place_pick2 E g place pos).1 mon
            (place_pick0 E g place pos).2 (place_pick1 E g place pos).2
            (place_pick2 E g place pos).2 with
        | error e =>
          refine ⟨⟨?_, ?_⟩, fun c => absurd c h0, fun _ c => absurd c h1,
            fun _ _ c => absurd c h2, ?_, ?_, ?_⟩
          · rintro ⟨g2, mon2, h⟩
            simp at h
          · rintro (c | ⟨_, c⟩ | ⟨_, _, c⟩)
            · exact absurd c h0
            · exact absurd c h1
            · exact absurd c h2
          · intro g2 mon2 h
            simp at h
          · intro g2 mon2 h
            simp at h
          · intro e2 h
            simp only [Except.error.injEq] at h
            exact ⟨h0, h1, h2, by rw [h]⟩
        | ok gm =>
          refine ⟨⟨?_, ?_⟩, fun c => absurd c h0, fun _ c => absurd c h1,
            fun _ _ c => absurd c h2, ?_, ?_, ?_⟩
          · rintro ⟨g2, mon2, h⟩
            simp at h
          · rintro (c | ⟨_, c⟩ | ⟨_, _, c⟩)
            · exact absurd c h0
            · exact absurd c h1
            · exact absurd c h2
          · intro g2 mon2 h
            simp at h
          · intro g2 mon2 h
            simp only [Except.ok.injEq, Prod.mk.injEq, and_true] at h
            refine ⟨h0, h1, h2, ?_⟩
            rw [← h.1, ← h.2]
          · intro e2 h
            simp at h

/-- Witness for C10: in the sample environment, from state 98 the first two
slots find parts and the third fails on both picks (the local candidate is the
zombie type 6, the fallback returns `MONS_0`): the call returns false with the
blank target unchanged. From state 0 the three slots pick 1, 2, 5 and the call
returns true with the chimera of these parts. -/
theorem define_chimera_for_place_all_or_nothing_witness :
    (place_pick0 sampleEnv 98 ⟨0, 1⟩ ⟨0, 0⟩).2 ≠ sampleEnv.MONS_0 ∧
    (place_pick1 sampleEnv 98 ⟨0, 1⟩ ⟨0, 0⟩).2 ≠ sampleEnv.MONS_0 ∧
    chimera_slot_fails sampleEnv (place_pick1 sampleEnv 98 ⟨0, 1⟩ ⟨0, 0⟩).1 ⟨0, 1⟩
      (sampleEnv.positioned_monster_picker ⟨0, 0⟩) ∧
    define_chimera_for_place sampleEnv 98 blank_monster ⟨0, 1⟩ 50 ⟨0, 0⟩ =
      .ok ((place_pick2 sampleEnv 98 ⟨0, 1⟩ ⟨0, 0⟩).1, blank_monster, false) ∧
    define_chimera_for_place sampleEnv 0 blank_monster ⟨0, 1⟩ 50 ⟨0, 0⟩ =
      .ok (sample_placed 0) ∧
    (sample_placed 0).2.2 = true ∧
    ((place_pick0 sampleEnv 0 ⟨0, 1⟩ ⟨0, 0⟩).2 ≠ sampleEnv.MONS_0 ∧
      (place_pick1 sampleEnv 0 ⟨0, 1⟩ ⟨0, 0⟩).2 ≠ sampleEnv.MONS_0 ∧
      (place_pick2 sampleEnv 0 ⟨0, 1⟩ ⟨0, 0⟩).2 ≠ sampleEnv.MONS_0 ∧
      define_chimera sampleEnv (place_pick2 sampleEnv 0 ⟨0, 1⟩ ⟨0, 0⟩).1 blank_monster
        (place_pick0 sampleEnv 0 ⟨0, 1⟩ ⟨0, 0⟩).2 (place_pick1 sampleEnv 0 ⟨0, 1⟩ ⟨0, 0⟩).2
        (place_pick2 sampleEnv 0 ⟨0, 1⟩ ⟨0, 0⟩).2 =
          .ok ((sample_placed 0).1, (sample_placed 0).2.1)) ∧
    (sample_placed 0).2.1.type = sampleEnv.MONS_CHIMERA ∧
    (sample_placed 0).2.1.base_monster = 1 ∧
    (sample_placed 0).2.1.props "chimera_part_2" = some 2 ∧
    (sample_placed 0).2.1.props "chimera_part_3" = some 5 :=
  ⟨by decide, by decide, ⟨rfl, rfl⟩,
   (define_chimera_for_place_all_or_nothing sampleEnv 98 blank_monster ⟨0, 1⟩ 50 ⟨0, 0⟩).2.2.2.1
     (by decide) (by decide) ⟨rfl, rfl⟩,
   rfl, rfl,
   (define_chimera_for_place_all_or_nothing sampleEnv 0 blank_monster ⟨0, 1⟩ 50 ⟨0, 0⟩).2.2.2.2.2.1
     (sample_placed 0).1 (sample_placed 0).2.1 rfl,
   by decide, by decide, by decide, by decide⟩

/-! ## Selection fallback -/

theorem pick_chimera_part_eq (E : Env G P) (g : G) (place : level_id) (picker : P) :
    pick_chimera_part E g place picker =
      if (local_pick E g place picker).2 ≠ E.MONS_0 then local_pick E g place picker
      else fallback_pick E g place picker := by
  unfold pick_chimera_part fallback_pick local_pick
  by_cases h : (E.pick_monster g place picker (is_bad_chimera_part E)).2 = E.MONS_0
  · simp [h]
  · simp [h]

theorem pick_chimera_part_fallback (E : Env G P) (g : G) (place : level_id) (picker : P)
    (h : (local_pick E g place picker).2 = E.MONS_0) :
    pick_chimera_part E g place picker = fallback_pick E g place picker := by
  rw [pick_chimera_part_eq, if_neg (not_not.mpr h)]

theorem slot_draw_eq (E : Env G P) (g : G) (place : level_id) (picker : P) :
    slot_draw E g place picker = pick_chimera_part E g place picker := by
  rw [pick_chimera_part_eq]
  rfl

theorem slot_draw0_eq (E : Env G P) (g : G) (place : level_id) (pos : coord_def) :
    slot_draw0 E g place pos = place_pick0 E g place pos :=
  slot_draw_eq E g place _

theorem slot_draw1_eq (E : Env G P) (g : G) (place : level_id) (pos : coord_def) :
    slot_draw1 E g place pos = place_pick1 E g place pos := by
  unfold slot_draw1 place_pick1
  rw [slot_draw0_eq, slot_draw_eq]

theorem slot_draw2_eq (E : Env G P) (g : G) (place : level_id) (pos : coord_def) :
    slot_draw2 E g place pos = place_pick2 E g place pos := by
  unfold slot_draw2 place_pick2
  rw [slot_draw1_eq, slot_draw_eq]

/-- The whole of `define_chimera_for_place` on the three slot draws of the
specification. -/
theorem define_chimera_for_place_eq (E : Env G P) (g : G) (mon : monster)
    (place : level_id) (ct : monster_type) (pos : coord_def) :
    define_chimera_for_place E g mon place ct pos =
      if (slot_draw0 E g place pos).2 = E.MONS_0 then
        .ok ((slot_draw0 E g place pos).1, mon, false)
      else if (slot_draw1 E g place pos).2 = E.MONS_0 then
        .ok ((slot_draw1 E g place pos).1, mon, false)
      else if (slot_draw2 E g place pos).2 = E.MONS_0 then
        .ok ((slot_draw2 E g place pos).1, mon, false)
      else
        match define_chimera E (slot_draw2 E g place pos).1 mon (slot_draw0 E g place pos).2
            (slot_draw1 E g place pos).2 (slot_draw2 E g place pos).2 with
        | .error e => .error e
        | .ok gm => .ok (gm.1, gm.2, true) := by
  rw [slot_draw0_eq, slot_draw1_eq, slot_draw2_eq]
  by_cases h0 : (place_pick0 E g place pos).2 = E.MONS_0
  · rw [if_pos h0]
    exact define_chimera_for_place_fail0 E g mon place ct pos h0
  · rw [if_neg h0]
    by_cases h1 : (place_pick1 E g place pos).2 = E.MONS_0
    · rw [if_pos h1]
      exact define_chimera_for_place_fail1 E g mon place ct pos h0 h1
    · rw [if_neg h1]
      by_cases h2 : (place_pick2 E g place pos).2 = E.MONS_0
      · rw [if_pos h2]
        exact define_chimera_for_place_fail2 E g mon place ct pos h0 h1 h2
      · rw [if_neg h2]
        exact define_chimera_for_place_picked E g mon place ct pos h0 h1 h2

/-- A true result of `define_chimera_for_place` is the chimera of the three
slot draws. -/
theorem define_chimera_for_place_true (E : Env G P) (g : G) (mon : monster)
    (place : level_id) (ct : monster_type) (pos : coord_def) (g2 : G) (mon2 : monster)
    (h : define_chimera_for_place E g mon place ct pos = .ok (g2, mon2, true)) :
    define_chimera E (slot_draw2 E g place pos).1 mon (slot_draw0 E g place pos).2
      (slot_draw1 E g place pos).2 (slot_draw2 E g place pos).2 = .ok (g2, mon2) := by
  rw [define_chimera_for_place_eq] at h
  split_ifs at h
  · simp at h
  · simp at h
  · simp at h
  · cases hd : define_chimera E (slot_draw2 E g place pos).1 mon (slot_draw0 E g place pos).2
        (slot_draw1 E g place pos).2 (slot_draw2 E g place pos).2 with
    | error e => simp [hd] at h
    | ok gm =>
      simp only [hd, Except.ok.injEq, Prod.mk.injEq, and_true] at h
      rw [← h.1, ← h.2]

/-- C11: selection fallback. `define_chimera_for_place` is computed slot by slot
on the three slot draws, each made in the state left by the one before: it
returns false with the target unchanged at the first draw that is `MONS_0`, and
otherwise the result of `define_chimera` on the three draws, which are then
the parts read back from the chimera in slot order. Each slot draw, and the
single part of `chimera_part_for_place`, is the branch-local pick when that is
not `MONS_0` (the state is then the one left by that pick alone: the fallback
has not been drawn) and otherwise the all-branches pick made at the absolute
depth of the place with the same exclusion predicate. If the branch-local
pick returns `MONS_0` for every slot and the all-branches pick does not, the
three parts are the three fallback draws in slot order, the call does not
return false, and it returns true with the chimera of these parts whenever
`define_chimera` returns on them, as it does when the draws honour the
exclusion predicate and the role markers of the instantiated target are in
range. -/
theorem define_chimera_for_place_fallback (E : Env G P) (g : G) (mon : monster)
    (place : level_id) (ct : monster_type) (pos : coord_def) :
    (define_chimera_for_place E g mon place ct pos =
      if (slot_draw0 E g place pos).2 = E.MONS_0 then
        .ok ((slot_draw0 E g place pos).1, mon, false)
      else if (slot_draw1 E g place pos).2 = E.MONS_0 then
        .ok ((slot_draw1 E g place pos).1, mon, false)
      else if (slot_draw2 E g place pos).2 = E.MONS_0 then
        .ok ((slot_draw2 E g place pos).1, mon, false)
      else
        match define_chimera E (slot_draw2 E g place pos).1 mon (slot_draw0 E g place pos).2
            (slot_draw1 E g place pos).2 (slot_draw2 E g place pos).2 with
        | .error e => .error e
        | .ok gm => .ok (gm.1, gm.2, true)) ∧
    (∀ g2 mon2, define_chimera_for_place E g mon place ct pos = .ok (g2, mon2, true) →
      define_chimera E (slot_draw2 E g place pos).1 mon (slot_draw0 E g place pos).2
        (slot_draw1 E g place pos).2 (slot_draw2 E g place pos).2 = .ok (g2, mon2) ∧
      get_chimera_part E mon2 1 = .ok (slot_draw0 E g place pos).2 ∧
      get_chimera_part E mon2 2 = .ok (slot_draw1 E g place pos).2 ∧
      get_chimera_part E mon2 3 = .ok (slot_draw2 E g place pos).2) ∧
    (∀ g1 picker,
      ((E.pick_monster g1 place picker (is_bad_chimera_part E)).2 ≠ E.MONS_0 →
        slot_draw E g1 place picker =
          E.pick_monster g1 place picker (is_bad_chimera_part E)) ∧
      ((E.pick_monster g1 place picker (is_bad_chimera_part E)).2 = E.MONS_0 →
        slot_draw E g1 place picker =
          E.pick_monster_all_branches
            (E.pick_monster g1 place picker (is_bad_chimera_part E)).1
            (E.absdepth place) picker (is_bad_chimera_part E))) ∧
    (∀ g1 picker, pick_chimera_part E g1 place picker =
      if (E.pick_monster g1 place picker (is_bad_chimera_part E)).2 ≠ E.MONS_0 then
        E.pick_monster g1 place picker (is_bad_chimera_part E)
      else
        E.pick_monster_all_branches
          (E.pick_monster g1 place picker (is_bad_chimera_part E)).1
          (E.absdepth place) picker (is_bad_chimera_part E)) ∧
    (chimera_part_for_place E g place ct =
      if (E.pick_monster_default g place (is_bad_chimera_part E)).2 ≠ E.MONS_0 then
        E.pick_monster_default g place (is_bad_chimera_part E)
      else
        E.pick_monster_all_branches_default
          (E.pick_monster_default g place (is_bad_chimera_part E)).1
          (E.absdepth place) (is_bad_chimera_part E)) ∧
    ((local_pick E g place (E.positioned_monster_picker pos)).2 = E.MONS_0 →
      (fallback0 E g place pos).2 ≠ E.MONS_0 →
      (local_pick E (fallback0 E g place pos).1 place
        (E.positioned_monster_picker pos)).2 = E.MONS_0 →
      (fallback1 E g place pos).2 ≠ E.MONS_0 →
      (local_pick E (fallback1 E g place pos).1 place
        (E.positioned_monster_picker pos)).2 = E.MONS_0 →
      (fallback2 E g place pos).2 ≠ E.MONS_0 →
      (slot_draw0 E g place pos = fallback0 E g place pos ∧
        slot_draw1 E g place pos = fallback1 E g place pos ∧
        slot_draw2 E g place pos = fallback2 E g place pos) ∧
      (place_pick0 E g place pos = fallback0 E g place pos ∧
        place_pick1 E g place pos = fallback1 E g place pos ∧
        place_pick2 E g place pos = fallback2 E g place pos) ∧
      (define_chimera_for_place E g mon place ct pos =
        match define_chimera E (fallback2 E g place pos).1 mon (fallback0 E g place pos).2
            (fallback1 E g place pos).2 (fallback2 E g place pos).2 with
        | .error e => .error e
        | .ok gm => .ok (gm.1, gm.2, true)) ∧
      (∀ g2 mon2, define_chimera_for_place E g mon place ct pos ≠ .ok (g2, mon2, false)) ∧
      (is_bad_chimera_part E (fallback0 E g place pos).2 = false →
        is_bad_chimera_part E (fallback1 E g place pos).2 = false →
        is_bad_chimera_part E (fallback2 E g place pos).2 = false →
        roles_in_range (chimera_baseline E (fallback2 E g place pos).1 mon
          (fallback0 E g place pos).2 (fallback1 E g place pos).2
          (fallback2 E g place pos).2).2.props →
        ∃ gm, define_chimera E (fallback2 E g place pos).1 mon (fallback0 E g place pos).2
            (fallback1 E g place pos).2 (fallback2 E g place pos).2 = .ok gm ∧
          define_chimera_for_place E g mon place ct pos = .ok (gm.1, gm.2, true))) := by
  refine ⟨define_chimera_for_place_eq E g mon place ct pos, ?_, ?_,
    fun g1 picker => pick_chimera_part_eq E g1 place picker, ?_, ?_⟩
  · intro g2 mon2 h
    have hd := define_chimera_for_place_true E g mon place ct pos g2 mon2 h
    obtain ⟨a, b, c, -, -, -⟩ := define_chimera_parts E _ mon _ _ _ (g2, mon2) hd
    exact ⟨hd, a, b, c⟩
  · intro g1 picker
    refine ⟨fun h => ?_, fun h => ?_⟩
    · unfold slot_draw
      rw [if_pos h]
    · unfold slot_draw
      rw [if_neg (not_not.mpr h)]
  · unfold chimera_part_for_place
    by_cases h : (E.pick_monster_default g place (is_bad_chimera_part E)).2 = E.MONS_0
    · simp [h]
    · simp [h]
  · intro l0 f0 l1 f1 l2 f2
    have e0 : place_pick0 E g place pos = fallback0 E g place pos :=
      pick_chimera_part_fallback E g place _ l0
    have e1 : place_pick1 E g place pos = fallback1 E g place pos := by
      unfold place_pick1
      rw [e0]
      exact pick_chimera_part_fallback E _ place _ l1
    have e2 : place_pick2 E g place pos = fallback2 E g place pos := by
      unfold place_pick2
      rw [e1]
      exact pick_chimera_part_fallback E _ place _ l2
    have hr := define_chimera_for_place_picked E g mon place ct pos
      (by rw [e0]; exact f0) (by rw [e1]; exact f1) (by rw [e2]; exact f2)
    rw [e0, e1, e2] at hr
    refine ⟨⟨(slot_draw0_eq E g place pos).trans e0, (slot_draw1_eq E g place pos).trans e1,
      (slot_draw2_eq E g place pos).trans e2⟩, ⟨e0, e1, e2⟩, hr, ?_, ?_⟩
    · intro g2 mon2 h
      rw [hr] at h
      cases hd : define_chimera E (fallback2 E g place pos).1 mon (fallback0 E g place pos).2
          (fallback1 E g place pos).2 (fallback2 E g place pos).2 with
      | error e => simp [hd] at h
      | ok gm => simp [hd] at h
    · intro b0 b1 b2 hrange
      obtain ⟨gm, hgm⟩ := define_chimera_ok E _ mon _ _ _ (not_bad_valid E _ b0)
        (not_bad_valid E _ b1) (not_bad_valid E _ b2) hrange
      refine ⟨gm, hgm, ?_⟩
      rw [hr, hgm]

/-- Witness for C11: with an empty branch-local pool the three slots are the
three fallback draws, all of type 3, and the call returns true with the
chimera of parts 3, 3, 3. With a branch-local pool that is empty in state 1
only, the first and third slots are branch-local picks (type 1) and the
second is the fallback draw (type 3): the chimera has parts 1, 3, 1. In the
sample environment from state 0 no fallback is drawn and the parts are the
branch-local picks 1, 2, 5. -/
theorem define_chimera_for_place_fallback_witness :
    (local_pick emptyBranchEnv 0 ⟨0, 1⟩ ()).2 = emptyBranchEnv.MONS_0 ∧
    (fallback0 emptyBranchEnv 0 ⟨0, 1⟩ ⟨0, 0⟩).2 = 3 ∧
    (fallback1 emptyBranchEnv 0 ⟨0, 1⟩ ⟨0, 0⟩).2 = 3 ∧
    (fallback2 emptyBranchEnv 0 ⟨0, 1⟩ ⟨0, 0⟩).2 = 3 ∧
    define_chimera_for_place emptyBranchEnv 0 blank_monster ⟨0, 1⟩ 50 ⟨0, 0⟩ =
      .ok (empty_branch_placed 0) ∧
    (empty_branch_placed 0).2.2 = true ∧
    (empty_branch_placed 0).2.1.base_monster = 3 ∧
    (empty_branch_placed 0).2.1.props "chimera_part_2" = some 3 ∧
    (empty_branch_placed 0).2.1.props "chimera_part_3" = some 3 ∧
    (∃ gm, define_chimera emptyBranchEnv (fallback2 emptyBranchEnv 0 ⟨0, 1⟩ ⟨0, 0⟩).1
        blank_monster (fallback0 emptyBranchEnv 0 ⟨0, 1⟩ ⟨0, 0⟩).2
        (fallback1 emptyBranchEnv 0 ⟨0, 1⟩ ⟨0, 0⟩).2
        (fallback2 emptyBranchEnv 0 ⟨0, 1⟩ ⟨0, 0⟩).2 = .ok gm ∧
      define_chimera_for_place emptyBranchEnv 0 blank_monster ⟨0, 1⟩ 50 ⟨0, 0⟩ =
        .ok (gm.1, gm.2, true)) ∧
    define_chimera_for_place fallbackOnceEnv 0 blank_monster ⟨0, 1⟩ 50 ⟨0, 0⟩ =
      .ok (fallback_once_placed 0) ∧
    (fallback_once_placed 0).2.2 = true ∧
    (local_pick fallbackOnceEnv 0 ⟨0, 1⟩ ()).2 = 1 ∧
    (local_pick fallbackOnceEnv 1 ⟨0, 1⟩ ()).2 = fallbackOnceEnv.MONS_0 ∧
    (fallback_pick fallbackOnceEnv 1 ⟨0, 1⟩ ()) = (3, 3) ∧
    (local_pick fallbackOnceEnv 3 ⟨0, 1⟩ ()).2 = 1 ∧
    (get_chimera_part fallbackOnceEnv (fallback_once_placed 0).2.1 1 =
        .ok (slot_draw0 fallbackOnceEnv 0 ⟨0, 1⟩ ⟨0, 0⟩).2 ∧
      get_chimera_part fallbackOnceEnv (fallback_once_placed 0).2.1 2 =
        .ok (slot_draw1 fallbackOnceEnv 0 ⟨0, 1⟩ ⟨0, 0⟩).2 ∧
      get_chimera_part fallbackOnceEnv (fallback_once_placed 0).2.1 3 =
        .ok (slot_draw2 fallbackOnceEnv 0 ⟨0, 1⟩ ⟨0, 0⟩).2) ∧
    get_chimera_part fallbackOnceEnv (fallback_once_placed 0).2.1 1 = .ok 1 ∧
    get_chimera_part fallbackOnceEnv (fallback_once_placed 0).2.1 2 = .ok 3 ∧
    get_chimera_part fallbackOnceEnv (fallback_once_placed 0).2.1 3 = .ok 1 ∧
    get_chimera_part sampleEnv (sample_placed 0).2.1 1 = .ok 1 ∧
    get_chimera_part sampleEnv (sample_placed 0).2.1 2 = .ok 2 ∧
    get_chimera_part sampleEnv (sample_placed 0).2.1 3 = .ok 5 :=
  ⟨rfl, by decide, by decide, by decide, rfl, by decide, by decide, by decide, by decide,
   ((define_chimera_for_place_fallback emptyBranchEnv 0 blank_monster ⟨0, 1⟩ 50
      ⟨0, 0⟩).2.2.2.2.2
      rfl (by decide) rfl (by decide) rfl (by decide)).2.2.2.2 rfl rfl rfl
      (roles_in_range_of_none _ rfl rfl rfl),
   rfl, by decide, by decide, by decide, rfl, by decide,
   ((define_chimera_for_place_fallback fallbackOnceEnv 0 blank_monster ⟨0, 1⟩ 50
      ⟨0, 0⟩).2.1 (fallback_once_placed 0).1 (fallback_once_placed 0).2.1 rfl).2,
   rfl, rfl, rfl, rfl, rfl, rfl⟩

/-! ## Cling against an existing legs-role -/

/-- The legs-role recorded by three applications when part 1 is jumpy and
parts 2 and 3 are not, whatever was recorded before. -/
theorem legs_role_jumpy_first (E : Env G P) (d1 d2 d3 : monster) (p : CrawlHashTable)
    (hJ1 : E.is_jumpy d1 = true) (hJ2 : E.is_jumpy d2 = false)
    (hJ3 : E.is_jumpy d3 = false) :
    roles_props E d3 3 (roles_props E d2 2 (roles_props E d1 1 p)) "chimera_legs" =
      some 1 := by
  simp only [roles_props_legs, hJ1, hJ2, hJ3]
  simp

/-- C12, counterexample: a jumpy part 1 and a clinging part 2 do not keep the
legs-role at 1. In the sample environment the parts 3, 1, 3 have a jumpy part
1 and a clinging part 2, and the jumpy part 3 takes the legs-role; in the
parts 3, 3, 2 the part 2 clings and is jumpy as well, and takes the legs-role
itself. -/
theorem cling_keeps_legs_role_counterexample :
    define_chimera sampleEnv 0 blank_monster 3 1 3 = .ok (sample_chimera 3 1 3) ∧
    sampleEnv.is_jumpy (dummy1 sampleEnv 0 blank_monster 3 1 3) = true ∧
    sampleEnv.can_cling_to_walls (dummy2 sampleEnv 0 blank_monster 3 1 3) = true ∧
    (sample_chimera 3 1 3).2.props "chimera_legs" = some 3 ∧
    (sample_chimera 3 1 3).2.props "chimera_legs" ≠ some 1 ∧
    define_chimera sampleEnv 0 blank_monster 3 3 2 = .ok (sample_chimera 3 3 2) ∧
    sampleEnv.is_jumpy (dummy1 sampleEnv 0 blank_monster 3 3 2) = true ∧
    sampleEnv.can_cling_to_walls (dummy2 sampleEnv 0 blank_monster 3 3 2) = true ∧
    (sample_chimera 3 3 2).2.props "chimera_legs" = some 2 ∧
    (sample_chimera 3 3 2).2.props "chimera_legs" ≠ some 1 :=
  ⟨rfl, by decide, by decide, by decide, by decide, rfl, by decide, by decide, by decide,
   by decide⟩

/-- C12, amended: cling does not override an existing legs-role. When part 1
is jumpy, part 2 can cling to walls and neither part 2 nor part 3 is jumpy,
the legs-role of the assembled monster is 1 (and `get_chimera_legs` returns
`p0`), whatever was recorded on the target before. The call returns for valid
parts with in-range role markers. -/
theorem define_chimera_cling_keeps_legs (E : Env G P) (g : G) (mon : monster)
    (p0 p1 p2 : monster_type)
    (hJ1 : E.is_jumpy (dummy1 E g mon p0 p1 p2) = true)
    (_hC2 : E.can_cling_to_walls (dummy2 E g mon p0 p1 p2) = true)
    (hJ2 : E.is_jumpy (dummy2 E g mon p0 p1 p2) = false)
    (hJ3 : E.is_jumpy (dummy3 E g mon p0 p1 p2) = false) :
    (is_valid_chimera_part E p0 = true → is_valid_chimera_part E p1 = true →
      is_valid_chimera_part E p2 = true →
      roles_in_range (chimera_baseline E g mon p0 p1 p2).2.props →
      ∃ r, define_chimera E g mon p0 p1 p2 = .ok r) ∧
    ∀ r, define_chimera E g mon p0 p1 p2 = .ok r →
      r.2.props "chimera_legs" = some 1 ∧ get_chimera_legs E r.2 = .ok p0 := by
  refine ⟨define_chimera_ok E g mon p0 p1 p2, ?_⟩
  intro r h
  have hL : r.2.props "chimera_legs" = some 1 := by
    rw [define_chimera_props E g mon p0 p1 p2 r h]
    exact legs_role_jumpy_first E _ _ _ _ hJ1 hJ2 hJ3
  obtain ⟨g1, -, -, -, -, -⟩ := define_chimera_parts E g mon p0 p1 p2 r h
  refine ⟨hL, ?_⟩
  unfold get_chimera_legs props_exists props_get_int
  rw [hL]
  simpa using g1

/-- Witness for C12 (amended): in the sample environment the parts 3 (jumpy),
1 (clings, not jumpy) and 2 (neither) keep the legs-role at 1. -/
theorem define_chimera_cling_keeps_legs_witness :
    sampleEnv.is_jumpy (dummy1 sampleEnv 0 blank_monster 3 1 2) = true ∧
    sampleEnv.can_cling_to_walls (dummy2 sampleEnv 0 blank_monster 3 1 2) = true ∧
    sampleEnv.is_jumpy (dummy2 sampleEnv 0 blank_monster 3 1 2) = false ∧
    sampleEnv.is_jumpy (dummy3 sampleEnv 0 blank_monster 3 1 2) = false ∧
    define_chimera sampleEnv 0 blank_monster 3 1 2 = .ok (sample_chimera 3 1 2) ∧
    (sample_chimera 3 1 2).2.props "chimera_legs" = some 1 ∧
    get_chimera_legs sampleEnv (sample_chimera 3 1 2).2 = .ok 3 :=
  have h := (define_chimera_cling_keeps_legs sampleEnv 0 blank_monster 3 1 2
    (by decide) (by decide) (by decide) (by decide)).2 (sample_chimera 3 1 2) rfl
  ⟨by decide, by decide, by decide, by decide, rfl, h.1, h.2⟩

/-! ## Speed -/

/-- The speed of any result of `define_chimera`, for the wings and legs
resolved on that result. -/
theorem define_chimera_speed_formula (E : Env G P) (g : G) (mon : monster)
    (p0 p1 p2 : monster_type) (r : G × monster)
    (h : define_chimera E g mon p0 p1 p2 = .ok r) (w l : monster_type)
    (hw : get_chimera_wings E r.2 = .ok w) (hl : get_chimera_legs E r.2 = .ok l) :
    r.2.speed =
      (if w ≠ E.MONS_NO_MONSTER ∧ w ≠ (if l = E.MONS_NO_MONSTER then p0 else l) then
        Int.tdiv (E.mons_class_base_speed (if l = E.MONS_NO_MONSTER then p0 else l)
          + E.mons_class_base_speed w) 2
      else if (if l = E.MONS_NO_MONSTER then p0 else l) ≠ p0 then
        E.mons_class_base_speed (if l = E.MONS_NO_MONSTER then p0 else l)
      else (chimera_baseline E g mon p0 p1 p2).2.speed) := by
  obtain ⟨_, w2, l2, hw2, hl2, hr⟩ := define_chimera_result E g mon p0 p1 p2 r h
  have hb : r.2.base_monster = (applied3 E g mon p0 p1 p2).2.base_monster := by rw [hr]
  have hp : r.2.props = (applied3 E g mon p0 p1 p2).2.props := by rw [hr]
  rw [get_chimera_wings_congr E _ r.2 hb hp, hw2] at hw
  rw [get_chimera_legs_congr E _ r.2 hb hp, hl2] at hl
  have ew : w2 = w := Except.ok.inj hw
  have el : l2 = l := Except.ok.inj hl
  subst ew
  subst el
  rw [hr]
  rfl

/-- The wings and legs of any result of `define_chimera` resolve. -/
theorem define_chimera_roles_resolve (E : Env G P) (g : G) (mon : monster)
    (p0 p1 p2 : monster_type) (r : G × monster)
    (h : define_chimera E g mon p0 p1 p2 = .ok r) :
    ∃ w l, get_chimera_wings E r.2 = .ok w ∧ get_chimera_legs E r.2 = .ok l := by
  obtain ⟨_, w2, l2, hw2, hl2, hr⟩ := define_chimera_result E g mon p0 p1 p2 r h
  have hb : r.2.base_monster = (applied3 E g mon p0 p1 p2).2.base_monster := by rw [hr]
  have hp : r.2.props = (applied3 E g mon p0 p1 p2).2.props := by rw [hr]
  exact ⟨w2, l2, by rw [get_chimera_wings_congr E _ r.2 hb hp, hw2],
    by rw [get_chimera_legs_congr E _ r.2 hb hp, hl2]⟩

/-- C13, counterexample: equal wings and legs ids do not leave the speed at
the baseline. With a type 7 that flies and clings, the parts 5, 7, 2 give wings
7 and legs 7; the instantiation of part 1 (type 5) leaves speed 14, and the
chimera has the base speed 10 of type 7. -/
theorem speed_unchanged_when_wings_eq_legs_counterexample :
    define_chimera wingedClingerEnv 0 blank_monster 5 7 2 =
      .ok (winged_clinger_chimera 5 7 2) ∧
    get_chimera_wings wingedClingerEnv (winged_clinger_chimera 5 7 2).2 = .ok 7 ∧
    get_chimera_legs wingedClingerEnv (winged_clinger_chimera 5 7 2).2 = .ok 7 ∧
    (chimera_baseline wingedClingerEnv 0 blank_monster 5 7 2).2.speed = 14 ∧
    (winged_clinger_chimera 5 7 2).2.speed = 10 ∧
    (winged_clinger_chimera 5 7 2).2.speed ≠
      (chimera_baseline wingedClingerEnv 0 blank_monster 5 7 2).2.speed :=
  ⟨rfl, rfl, rfl, by decide, by decide, by decide⟩

/-- C13, amended: when the wings id of an assembled chimera equals its legs id
(the legs being `p0` when no legs-role is recorded), the speed is the one left
by the instantiation of `p0` if the legs id is `p0`, and the base speed of the
legs type otherwise. The wings and legs of a result always resolve, and the
call returns for valid parts with in-range role markers. -/
theorem define_chimera_speed_wings_eq_legs (E : Env G P) (g : G) (mon : monster)
    (p0 p1 p2 : monster_type) :
    (is_valid_chimera_part E p0 = true → is_valid_chimera_part E p1 = true →
      is_valid_chimera_part E p2 = true →
      roles_in_range (chimera_baseline E g mon p0 p1 p2).2.props →
      ∃ r, define_chimera E g mon p0 p1 p2 = .ok r) ∧
    ∀ r, define_chimera E g mon p0 p1 p2 = .ok r →
      (∃ w l, get_chimera_wings E r.2 = .ok w ∧ get_chimera_legs E r.2 = .ok l) ∧
      ∀ w l, get_chimera_wings E r.2 = .ok w → get_chimera_legs E r.2 = .ok l →
        w = (if l = E.MONS_NO_MONSTER then p0 else l) →
        r.2.speed =
          (if (if l = E.MONS_NO_MONSTER then p0 else l) = p0 then
            (chimera_baseline E g mon p0 p1 p2).2.speed
          else E.mons_class_base_speed (if l = E.MONS_NO_MONSTER then p0 else l)) := by
  refine ⟨define_chimera_ok E g mon p0 p1 p2, ?_⟩
  intro r h
  refine ⟨define_chimera_roles_resolve E g mon p0 p1 p2 r h, ?_⟩
  intro w l hw hl hwl
  rw [define_chimera_speed_formula E g mon p0 p1 p2 r h w l hw hl]
  generalize (if l = E.MONS_NO_MONSTER then p0 else l) = L at hwl ⊢
  have c1 : ¬ (w ≠ E.MONS_NO_MONSTER ∧ w ≠ L) := fun c => c.2 hwl
  rw [if_neg c1]
  by_cases c2 : L = p0
  · rw [if_neg (not_not.mpr c2), if_pos c2]
  · rw [if_pos c2, if_neg c2]

/-- Witness for C13 (amended): with the winged clinger as part 2 the speed is
the base speed 10 of the legs type 7; with it as part 1 (parts 7, 2, 2) wings
and legs are both `p0` and the speed is the one left by its instantiation. -/
theorem define_chimera_speed_wings_eq_legs_witness :
    define_chimera wingedClingerEnv 0 blank_monster 5 7 2 =
      .ok (winged_clinger_chimera 5 7 2) ∧
    (winged_clinger_chimera 5 7 2).2.speed =
      (if (if (7 : monster_type) = wingedClingerEnv.MONS_NO_MONSTER then 5 else 7) = 5 then
        (chimera_baseline wingedClingerEnv 0 blank_monster 5 7 2).2.speed
      else wingedClingerEnv.mons_class_base_speed
        (if (7 : monster_type) = wingedClingerEnv.MONS_NO_MONSTER then 5 else 7)) ∧
    define_chimera wingedClingerEnv 0 blank_monster 7 2 2 =
      .ok (winged_clinger_chimera 7 2 2) ∧
    get_chimera_wings wingedClingerEnv (winged_clinger_chimera 7 2 2).2 = .ok 7 ∧
    get_chimera_legs wingedClingerEnv (winged_clinger_chimera 7 2 2).2 = .ok 7 ∧
    (winged_clinger_chimera 7 2 2).2.speed =
      (chimera_baseline wingedClingerEnv 0 blank_monster 7 2 2).2.speed :=
  ⟨rfl,
   ((define_chimera_speed_wings_eq_legs wingedClingerEnv 0 blank_monster 5 7 2).2
      (winged_clinger_chimera 5 7 2) rfl).2 7 7 rfl rfl (by decide),
   rfl, rfl, rfl, by decide⟩

/-! ## Introspection -/

/-- C14: part lookup. For both overloads of `get_chimera_part`, part 1 is the
base part whatever the property bag holds; part 2 and part 3 are the stored
ids when the entries exist and `MONS_PROGRAM_BUG` when they are absent; a part
number outside `1 <= n < 4` fails the range assertion and one inside never
does. The two overloads agree whenever the info's `base_type` and `props`
mirror the monster's `base_monster` and `props`. -/
theorem get_chimera_part_lookup (E : Env G P) (mon : monster) (mi : monster_info) :
    (get_chimera_part E mon 1 = .ok mon.base_monster ∧
      (∀ v, mon.props "chimera_part_2" = some v → get_chimera_part E mon 2 = .ok v) ∧
      (mon.props "chimera_part_2" = none →
        get_chimera_part E mon 2 = .ok E.MONS_PROGRAM_BUG) ∧
      (∀ v, mon.props "chimera_part_3" = some v → get_chimera_part E mon 3 = .ok v) ∧
      (mon.props "chimera_part_3" = none →
        get_chimera_part E mon 3 = .ok E.MONS_PROGRAM_BUG) ∧
      (∀ n, ¬ (1 ≤ n ∧ n < 4) → get_chimera_part E mon n = .error die.ASSERT_RANGE) ∧
      (∀ n, 1 ≤ n ∧ n < 4 → ∃ t, get_chimera_part E mon n = .ok t)) ∧
    (get_chimera_part_info E mi 1 = .ok mi.base_type ∧
      (∀ v, mi.props "chimera_part_2" = some v → get_chimera_part_info E mi 2 = .ok v) ∧
      (mi.props "chimera_part_2" = none →
        get_chimera_part_info E mi 2 = .ok E.MONS_PROGRAM_BUG) ∧
      (∀ v, mi.props "chimera_part_3" = some v → get_chimera_part_info E mi 3 = .ok v) ∧
      (mi.props "chimera_part_3" = none →
        get_chimera_part_info E mi 3 = .ok E.MONS_PROGRAM_BUG) ∧
      (∀ n, ¬ (1 ≤ n ∧ n < 4) → get_chimera_part_info E mi n = .error die.ASSERT_RANGE) ∧
      (∀ n, 1 ≤ n ∧ n < 4 → ∃ t, get_chimera_part_info E mi n = .ok t)) ∧
    (mi.base_type = mon.base_monster → mi.props = mon.props →
      ∀ n, get_chimera_part_info E mi n = get_chimera_part E mon n) := by
  refine ⟨⟨?_, ?_, ?_, ?_, ?_, ?_, ?_⟩, ⟨?_, ?_, ?_, ?_, ?_, ?_, ?_⟩, ?_⟩
  · simp [get_chimera_part]
  · intro v hv
    simp [get_chimera_part, props_exists, props_get_int, hv]
  · intro hv
    simp [get_chimera_part, props_exists, hv]
  · intro v hv
    simp [get_chimera_part, props_exists, props_get_int, hv]
  · intro hv
    simp [get_chimera_part, props_exists, hv]
  · intro n hn
    unfold get_chimera_part
    rw [if_pos hn]
  · intro n hn
    exact get_chimera_part_in_range E mon n hn
  · simp [get_chimera_part_info]
  · intro v hv
    simp [get_chimera_part_info, props_exists, props_get_int, hv]
  · intro hv
    simp [get_chimera_part_info, props_exists, hv]
  · intro v hv
    simp [get_chimera_part_info, props_exists, props_get_int, hv]
  · intro hv
    simp [get_chimera_part_info, props_exists, hv]
  · intro n hn
    unfold get_chimera_part_info
    rw [if_pos hn]
  · intro n hn
    unfold get_chimera_part_info
    rw [if_neg (not_not.mpr hn)]
    split_ifs <;> exact ⟨_, rfl⟩
  · intro hb hp n
    unfold get_chimera_part_info get_chimera_part
    rw [hb, hp]

/-- Witness for C14: the info of the sample chimera of parts 1, 2, 5 mirrors
the monster, and both overloads return 1, 2, 5; part number 4 is rejected, and
on a blank monster part 2 is the sentinel. -/
theorem get_chimera_part_lookup_witness :
    sample_info.base_type = (sample_chimera 1 2 5).2.base_monster ∧
    sample_info.props = (sample_chimera 1 2 5).2.props ∧
    (∀ n, get_chimera_part_info sampleEnv sample_info n =
      get_chimera_part sampleEnv (sample_chimera 1 2 5).2 n) ∧
    get_chimera_part_info sampleEnv sample_info 1 = .ok 1 ∧
    get_chimera_part_info sampleEnv sample_info 2 = .ok 2 ∧
    get_chimera_part_info sampleEnv sample_info 3 = .ok 5 ∧
    get_chimera_part sampleEnv (sample_chimera 1 2 5).2 4 = .error die.ASSERT_RANGE ∧
    get_chimera_part sampleEnv blank_monster 2 = .ok sampleEnv.MONS_PROGRAM_BUG :=
  ⟨rfl, rfl,
   (get_chimera_part_lookup sampleEnv (sample_chimera 1 2 5).2 sample_info).2.2 rfl rfl,
   rfl, rfl, rfl, rfl, rfl⟩

theorem define_chimera_type (E : Env G P) (g : G) (mon : monster)
    (p0 p1 p2 : monster_type) (r : G × monster)
    (h : define_chimera E g mon p0 p1 p2 = .ok r) : r.2.type = E.MONS_CHIMERA := by
  obtain ⟨_, w, l, _, _, hr⟩ := define_chimera_result E g mon p0 p1 p2 r h
  rw [hr]
  rfl

theorem random_chimera_part_of_draw (E : Env G P) (g : G) (mon : monster) (t : monster_type)
    (hc : mon.type = E.MONS_CHIMERA)
    (ht : get_chimera_part E mon ((E.random2 g 3).2 + 1) = .ok t) :
    random_chimera_part E g mon = .ok ((E.random2 g 3).1, t) := by
  unfold random_chimera_part
  rw [if_neg (not_not.mpr hc)]
  simp only [ht]
  rfl

/-- C15: `random_chimera_part` picks a part by its number. On a monster that
is not a chimera it fails its assertion. On a chimera, for a draw `r` of
`random2(3)` with `0 <= r < 3`, it returns `get_chimera_part(mon, r + 1)`, whose
range assertion holds; every part number 1, 2, 3 comes from exactly one draw;
and on a monster assembled by `define_chimera` the draw 0 gives `p0`, the draw
1 gives `p1` and the draw 2 gives `p2`, so the result is one of the three ids. -/
theorem random_chimera_part_by_role (E : Env G P) (g : G) (mon : monster) :
    (mon.type ≠ E.MONS_CHIMERA →
      random_chimera_part E g mon = .error die.ASSERT_is_chimera) ∧
    (mon.type = E.MONS_CHIMERA → 0 ≤ (E.random2 g 3).2 → (E.random2 g 3).2 < 3 →
      ∃ t, get_chimera_part E mon ((E.random2 g 3).2 + 1) = .ok t ∧
        random_chimera_part E g mon = .ok ((E.random2 g 3).1, t)) ∧
    (∀ n : Int, 1 ≤ n ∧ n < 4 → ∃! r : Int, (0 ≤ r ∧ r < 3) ∧ r + 1 = n) ∧
    (∀ g0 mon0 p0 p1 p2 res, define_chimera E g0 mon0 p0 p1 p2 = .ok res →
      0 ≤ (E.random2 g 3).2 → (E.random2 g 3).2 < 3 →
      ∃ t, random_chimera_part E g res.2 = .ok ((E.random2 g 3).1, t) ∧
        ((E.random2 g 3).2 = 0 → t = p0) ∧ ((E.random2 g 3).2 = 1 → t = p1) ∧
        ((E.random2 g 3).2 = 2 → t = p2) ∧ (t = p0 ∨ t = p1 ∨ t = p2)) := by
  refine ⟨?_, ?_, ?_, ?_⟩
  · intro hc
    unfold random_chimera_part
    rw [if_pos hc]
  · intro hc h0 h3
    obtain ⟨t, ht⟩ := get_chimera_part_in_range E mon ((E.random2 g 3).2 + 1)
      ⟨by omega, by omega⟩
    exact ⟨t, ht, random_chimera_part_of_draw E g mon t hc ht⟩
  · intro n hn
    refine ⟨n - 1, ⟨⟨by omega, by omega⟩, by omega⟩, ?_⟩
    intro r hr
    omega
  · intro g0 mon0 p0 p1 p2 res h h0 h3
    have hc := define_chimera_type E g0 mon0 p0 p1 p2 res h
    obtain ⟨g1, g2, g3, -, -, -⟩ := define_chimera_parts E g0 mon0 p0 p1 p2 res h
    have hcases : (E.random2 g 3).2 = 0 ∨ (E.random2 g 3).2 = 1 ∨ (E.random2 g 3).2 = 2 := by
      omega
    rcases hcases with hd | hd | hd
    · refine ⟨p0, random_chimera_part_of_draw E g res.2 p0 hc (by rw [hd]; exact g1),
        fun _ => rfl, fun c => ?_, fun c => ?_, Or.inl rfl⟩ <;> omega
    · refine ⟨p1, random_chimera_part_of_draw E g res.2 p1 hc (by rw [hd]; exact g2),
        fun c => ?_, fun _ => rfl, fun c => ?_, Or.inr (Or.inl rfl)⟩ <;> omega
    · refine ⟨p2, random_chimera_part_of_draw E g res.2 p2 hc (by rw [hd]; exact g3),
        fun c => ?_, fun c => ?_, fun _ => rfl, Or.inr (Or.inr rfl)⟩ <;> omega

/-- Witness for C15: in the sample environment the draw in state 4 is 1, and
on the chimera of parts 1, 2, 5 `random_chimera_part` returns part 2's id; on a
blank monster it fails its assertion. -/
theorem random_chimera_part_by_role_witness :
    define_chimera sampleEnv 0 blank_monster 1 2 5 = .ok (sample_chimera 1 2 5) ∧
    (sampleEnv.random2 4 3).2 = 1 ∧
    (∃ t, random_chimera_part sampleEnv 4 (sample_chimera 1 2 5).2 =
        .ok ((sampleEnv.random2 4 3).1, t) ∧
      ((sampleEnv.random2 4 3).2 = 0 → t = 1) ∧ ((sampleEnv.random2 4 3).2 = 1 → t = 2) ∧
      ((sampleEnv.random2 4 3).2 = 2 → t = 5) ∧ (t = 1 ∨ t = 2 ∨ t = 5)) ∧
    random_chimera_part sampleEnv 4 (sample_chimera 1 2 5).2 = .ok (5, 2) ∧
    random_chimera_part sampleEnv 4 blank_monster = .error die.ASSERT_is_chimera :=
  ⟨rfl, by decide,
   (random_chimera_part_by_role sampleEnv 4 blank_monster).2.2.2 0 blank_monster 1 2 5
     (sample_chimera 1 2 5) rfl (by decide) (by decide),
   rfl,
   (random_chimera_part_by_role sampleEnv 4 blank_monster).1 (by decide)⟩

/-- C16: display suffix. `chimera_part_names` returns the empty string whenever
the entry of part 2 or the entry of part 3 is absent, also when exactly one of
them is present. When both are present and in range
(`MONS_PROGRAM_BUG < id < NUM_MONSTERS`) it returns the comma, the name of part
2, the comma and the name of part 3, in that order; the base part plays no
role. -/
theorem chimera_part_names_suffix (E : Env G P) (mi : monster_info) :
    (mi.props "chimera_part_2" = none ∨ mi.props "chimera_part_3" = none →
      chimera_part_names E mi = .ok "") ∧
    (∀ t2 t3, mi.props "chimera_part_2" = some t2 → mi.props "chimera_part_3" = some t3 →
      E.MONS_PROGRAM_BUG < t2 → t2 < E.NUM_MONSTERS →
      E.MONS_PROGRAM_BUG < t3 → t3 < E.NUM_MONSTERS →
      chimera_part_names E mi =
        .ok (", " ++ E.monster_name t2 ++ ", " ++ E.monster_name t3)) ∧
    (∀ mi2 : monster_info, mi2.props = mi.props →
      chimera_part_names E mi2 = chimera_part_names E mi) := by
  refine ⟨?_, ?_, ?_⟩
  · intro h
    unfold chimera_part_names props_exists
    rcases h with h | h
    · simp [h]
    · simp [h]
  · intro t2 t3 h2 h3 a2 b2 a3 b3
    unfold chimera_part_names props_exists props_get_int
    simp [h2, h3, a2, b2, a3, b3]
  · intro mi2 hp
    unfold chimera_part_names
    rw [hp]

/-- Witness for C16: the info of the sample chimera of parts 1, 2, 5 has both
entries, in range; the suffix names part 2 and part 3. With only the entry of
part 2 present the suffix is empty. -/
theorem chimera_part_names_suffix_witness :
    sample_info.props "chimera_part_2" = some 2 ∧
    sample_info.props "chimera_part_3" = some 5 ∧
    chimera_part_names sampleEnv sample_info =
      .ok (", " ++ sampleEnv.monster_name 2 ++ ", " ++ sampleEnv.monster_name 5) ∧
    chimera_part_names sampleEnv sample_info = .ok ", thing, bird" ∧
    chimera_part_names sampleEnv
      { type := 50, base_type := 1, props := props_set_int (fun _ => none) "chimera_part_2" 2 }
      = .ok "" :=
  ⟨by decide, by decide,
   (chimera_part_names_suffix sampleEnv sample_info).2.1 2 5 (by decide) (by decide)
     (by decide) (by decide) (by decide) (by decide),
   rfl,
   (chimera_part_names_suffix sampleEnv
     { type := 50, base_type := 1,
       props := props_set_int (fun _ => none) "chimera_part_2" 2 }).1 (Or.inr rfl)⟩

/-! ## Misc slots and the spellcaster flag -/

theorem apply_chimera_part_not_zombified (E : Env G P) (g : G) (mon : monster)
    (part : monster_type) (partnum : Int) (r : G × monster)
    (h : apply_chimera_part E g mon part partnum = .ok r) :
    E.mons_class_is_zombified part = false := by
  cases hz : E.mons_class_is_zombified part
  · rfl
  · rw [(apply_chimera_part_assert E g mon part partnum).mpr hz] at h
    cases h

/-- The slots outside 1, 2, 5 and the misc slot of the part are left alone by
the merge of one part. -/
theorem merged_spells_frame (E : Env G P) (d : monster) (slot : Fin 6) (f : monster_spells)
    (j : Fin 6) (hslot : slot = 3 ∨ slot = 4) (hj : j ≠ slot) (h1 : j ≠ 1) (h2 : j ≠ 2)
    (h5 : j ≠ 5) : merged_spells E d slot f j = f j := by
  rw [merged_spells_apply E d slot f j hslot]
  simp [hj, h1, h2, h5]

theorem merged_spells_misc (E : Env G P) (d : monster) (slot : Fin 6) (f : monster_spells)
    (hslot : slot = 3 ∨ slot = 4) :
    merged_spells E d slot f slot =
      if d.spells 0 ≠ E.SPELL_NO_SPELL then d.spells 0 else f slot := by
  rw [merged_spells_apply E d slot f slot hslot]
  simp

/-- C17: misc slots. After `define_chimera`, slot 3 holds the primary spell
(slot 0) of the temporary monster of part 2 if that is not `SPELL_NO_SPELL` and
otherwise the slot 3 left by the instantiation of `p0`; slot 4 holds the
primary spell of the temporary monster of part 3 if that is not
`SPELL_NO_SPELL` and otherwise the baseline slot 4; slot 0 is the baseline slot
0. No application with part number 1, 2 or 3 writes slot 0, and the
application with part number 1 writes no spell slot. The call returns for
valid parts with in-range role markers. -/
theorem define_chimera_misc_slots (E : Env G P) (g : G) (mon : monster)
    (p0 p1 p2 : monster_type) :
    (is_valid_chimera_part E p0 = true → is_valid_chimera_part E p1 = true →
      is_valid_chimera_part E p2 = true →
      roles_in_range (chimera_baseline E g mon p0 p1 p2).2.props →
      ∃ r, define_chimera E g mon p0 p1 p2 = .ok r) ∧
    (∀ r, define_chimera E g mon p0 p1 p2 = .ok r →
      r.2.spells 3 =
        (if (dummy2 E g mon p0 p1 p2).spells 0 ≠ E.SPELL_NO_SPELL then
          (dummy2 E g mon p0 p1 p2).spells 0
        else (chimera_baseline E g mon p0 p1 p2).2.spells 3) ∧
      r.2.spells 4 =
        (if (dummy3 E g mon p0 p1 p2).spells 0 ≠ E.SPELL_NO_SPELL then
          (dummy3 E g mon p0 p1 p2).spells 0
        else (chimera_baseline E g mon p0 p1 p2).2.spells 4) ∧
      r.2.spells 0 = (chimera_baseline E g mon p0 p1 p2).2.spells 0) ∧
    (∀ g1 m part r1, apply_chimera_part E g1 m part 1 = .ok r1 → r1.2.spells = m.spells) ∧
    (∀ g1 m part n r1, n = 1 ∨ n = 2 ∨ n = 3 →
      apply_chimera_part E g1 m part n = .ok r1 → r1.2.spells 0 = m.spells 0) := by
  refine ⟨define_chimera_ok E g mon p0 p1 p2, ?_, ?_, ?_⟩
  · intro r h
    rw [define_chimera_spells E g mon p0 p1 p2 r h]
    refine ⟨?_, ?_, ?_⟩
    · rw [merged_spells_frame E _ 4 _ 3 (Or.inr rfl) (by decide) (by decide) (by decide)
        (by decide), merged_spells_misc E _ 3 _ (Or.inl rfl)]
    · rw [merged_spells_misc E _ 4 _ (Or.inr rfl),
        merged_spells_frame E _ 3 _ 4 (Or.inl rfl) (by decide) (by decide) (by decide)
          (by decide)]
    · rw [merged_spells_frame E _ 4 _ 0 (Or.inr rfl) (by decide) (by decide) (by decide)
        (by decide),
        merged_spells_frame E _ 3 _ 0 (Or.inl rfl) (by decide) (by decide) (by decide)
          (by decide)]
  · intro g1 m part r1 h
    have hz := apply_chimera_part_not_zombified E g1 m part 1 r1 h
    rw [apply_chimera_part_one E g1 m part hz] at h
    rw [← Except.ok.inj h]
    rfl
  · intro g1 m part n r1 hn h
    have hz := apply_chimera_part_not_zombified E g1 m part n r1 h
    rcases hn with hn | hn | hn <;> subst hn
    · rw [apply_chimera_part_one E g1 m part hz] at h
      rw [← Except.ok.inj h]
      rfl
    · rw [apply_chimera_part_two E g1 m part hz] at h
      rw [← Except.ok.inj h]
      exact merged_spells_frame E _ 3 _ 0 (Or.inl rfl) (by decide) (by decide) (by decide)
        (by decide)
    · rw [apply_chimera_part_three E g1 m part hz] at h
      rw [← Except.ok.inj h]
      exact merged_spells_frame E _ 4 _ 0 (Or.inr rfl) (by decide) (by decide) (by decide)
        (by decide)

/-- Witness for C17: in the sample chimera of parts 1, 2, 5 slot 3 holds part
2's primary spell 71, slot 4 part 3's primary spell 81 and slot 0 is the empty
baseline slot. -/
theorem define_chimera_misc_slots_witness :
    define_chimera sampleEnv 0 blank_monster 1 2 5 = .ok (sample_chimera 1 2 5) ∧
    ((sample_chimera 1 2 5).2.spells 3 =
        (if (dummy2 sampleEnv 0 blank_monster 1 2 5).spells 0 ≠ sampleEnv.SPELL_NO_SPELL then
          (dummy2 sampleEnv 0 blank_monster 1 2 5).spells 0
        else (chimera_baseline sampleEnv 0 blank_monster 1 2 5).2.spells 3) ∧
      (sample_chimera 1 2 5).2.spells 4 =
        (if (dummy3 sampleEnv 0 blank_monster 1 2 5).spells 0 ≠ sampleEnv.SPELL_NO_SPELL then
          (dummy3 sampleEnv 0 blank_monster 1 2 5).spells 0
        else (chimera_baseline sampleEnv 0 blank_monster 1 2 5).2.spells 4) ∧
      (sample_chimera 1 2 5).2.spells 0 =
        (chimera_baseline sampleEnv 0 blank_monster 1 2 5).2.spells 0) ∧
    (sample_chimera 1 2 5).2.spells 3 = 71 ∧ (sample_chimera 1 2 5).2.spells 4 = 81 ∧
    (sample_chimera 1 2 5).2.spells 0 = 0 :=
  ⟨rfl,
   (define_chimera_misc_slots sampleEnv 0 blank_monster 1 2 5).2.1 (sample_chimera 1 2 5) rfl,
   by decide, by decide, by decide⟩

theorem lor_lor_self (x m : Nat) : (x ||| m) ||| m = x ||| m := by
  apply Nat.eq_of_testBit_eq
  intro i
  simp [Nat.testBit_or]

theorem applied1_flags (E : Env G P) (g : G) (mon : monster) (p0 p1 p2 : monster_type) :
    (applied1 E g mon p0 p1 p2).2.flags = (chimera_baseline E g mon p0 p1 p2).2.flags := rfl

theorem applied3_flags (E : Env G P) (g : G) (mon : monster) (p0 p1 p2 : monster_type) :
    (applied3 E g mon p0 p1 p2).2.flags =
      if E.can_use_spells (dummy3 E g mon p0 p1 p2) = true then
        (if E.can_use_spells (dummy2 E g mon p0 p1 p2) = true then
          (chimera_baseline E g mon p0 p1 p2).2.flags ||| E.MF_SPELLCASTER
        else (chimera_baseline E g mon p0 p1 p2).2.flags) ||| E.MF_SPELLCASTER
      else
        (if E.can_use_spells (dummy2 E g mon p0 p1 p2) = true then
          (chimera_baseline E g mon p0 p1 p2).2.flags ||| E.MF_SPELLCASTER
        else (chimera_baseline E g mon p0 p1 p2).2.flags) := rfl

/-- C18: spellcaster flag merge. After `define_chimera` the flags are the flags
left by the instantiation of `p0`, or-ed with `MF_SPELLCASTER` if and only if
the temporary monster of part 2 or of part 3 can use spells. No bit set in the
baseline is cleared, no bit outside `MF_SPELLCASTER` changes, and the
application of part 1 leaves the flags alone whatever part 1 can cast. The
call returns for valid parts with in-range role markers. -/
theorem define_chimera_spellcaster_flag (E : Env G P) (g : G) (mon : monster)
    (p0 p1 p2 : monster_type) :
    (is_valid_chimera_part E p0 = true → is_valid_chimera_part E p1 = true →
      is_valid_chimera_part E p2 = true →
      roles_in_range (chimera_baseline E g mon p0 p1 p2).2.props →
      ∃ r, define_chimera E g mon p0 p1 p2 = .ok r) ∧
    (∀ r, define_chimera E g mon p0 p1 p2 = .ok r →
      r.2.flags =
        (if E.can_use_spells (dummy2 E g mon p0 p1 p2) = true ∨
            E.can_use_spells (dummy3 E g mon p0 p1 p2) = true then
          (chimera_baseline E g mon p0 p1 p2).2.flags ||| E.MF_SPELLCASTER
        else (chimera_baseline E g mon p0 p1 p2).2.flags) ∧
      (∀ i, (chimera_baseline E g mon p0 p1 p2).2.flags.testBit i = true →
        r.2.flags.testBit i = true) ∧
      (∀ i, E.MF_SPELLCASTER.testBit i = false →
        r.2.flags.testBit i = (chimera_baseline E g mon p0 p1 p2).2.flags.testBit i)) ∧
    (applied1 E g mon p0 p1 p2).2.flags = (chimera_baseline E g mon p0 p1 p2).2.flags := by
  refine ⟨define_chimera_ok E g mon p0 p1 p2, ?_, applied1_flags E g mon p0 p1 p2⟩
  intro r h
  obtain ⟨_, w, l, _, _, hr⟩ := define_chimera_result E g mon p0 p1 p2 r h
  have hf : r.2.flags = (applied3 E g mon p0 p1 p2).2.flags := by rw [hr]
  rw [hf, applied3_flags]
  generalize (chimera_baseline E g mon p0 p1 p2).2.flags = b
  cases E.can_use_spells (dummy2 E g mon p0 p1 p2) <;>
    cases E.can_use_spells (dummy3 E g mon p0 p1 p2) <;>
    exact ⟨by simp [lor_lor_self], fun i hi => by simp [Nat.testBit_or, hi],
      fun i hi => by simp [Nat.testBit_or, hi]⟩

/-- Witness for C18: in the sample chimera of parts 1, 2, 5 part 2 (type 2)
can use spells; the baseline flags 0 become `MF_SPELLCASTER`. In the chimera of
parts 2, 1, 5 only part 1 can use spells and the flags stay the baseline's. -/
theorem define_chimera_spellcaster_flag_witness :
    define_chimera sampleEnv 0 blank_monster 1 2 5 = .ok (sample_chimera 1 2 5) ∧
    (sample_chimera 1 2 5).2.flags =
      (if sampleEnv.can_use_spells (dummy2 sampleEnv 0 blank_monster 1 2 5) = true ∨
          sampleEnv.can_use_spells (dummy3 sampleEnv 0 blank_monster 1 2 5) = true then
        (chimera_baseline sampleEnv 0 blank_monster 1 2 5).2.flags ||| sampleEnv.MF_SPELLCASTER
      else (chimera_baseline sampleEnv 0 blank_monster 1 2 5).2.flags) ∧
    (chimera_baseline sampleEnv 0 blank_monster 1 2 5).2.flags = 0 ∧
    (sample_chimera 1 2 5).2.flags = 256 ∧
    define_chimera sampleEnv 0 blank_monster 2 1 5 = .ok (sample_chimera 2 1 5) ∧
    sampleEnv.can_use_spells (dummy1 sampleEnv 0 blank_monster 2 1 5) = true ∧
    (sample_chimera 2 1 5).2.flags = (chimera_baseline sampleEnv 0 blank_monster 2 1 5).2.flags :=
  ⟨rfl,
   ((define_chimera_spellcaster_flag sampleEnv 0 blank_monster 1 2 5).2.1
      (sample_chimera 1 2 5) rfl).1,
   by decide, by decide, rfl, by decide, by decide⟩

/-! ## Resolvable role markers -/

theorem get_chimera_part_of_role (E : Env G P) (m : monster) (p0 p1 p2 : monster_type)
    (hb : m.base_monster = p0) (h2 : m.props "chimera_part_2" = some p1)
    (h3 : m.props "chimera_part_3" = some p2) (n : Int) (hn : 1 ≤ n ∧ n < 4) :
    get_chimera_part E m n = .ok (if n = 1 then p0 else if n = 2 then p1 else p2) := by
  obtain ⟨g1, g2, g3⟩ := get_chimera_part_assembled E m p0 p1 p2 hb h2 h3
  have hcases : n = 1 ∨ n = 2 ∨ n = 3 := by omega
  rcases hcases with h | h | h <;> subst h
  · simpa using g1
  · simpa using g2
  · simpa using g3

theorem part_id_cases (p0 p1 p2 : monster_type) (n : Int) :
    (if n = 1 then p0 else if n = 2 then p1 else p2) = p0 ∨
      (if n = 1 then p0 else if n = 2 then p1 else p2) = p1 ∨
      (if n = 1 then p0 else if n = 2 then p1 else p2) = p2 := by
  split_ifs
  · exact Or.inl rfl
  · exact Or.inr (Or.inl rfl)
  · exact Or.inr (Or.inr rfl)

theorem get_chimera_wings_assembled (E : Env G P) (m : monster) (p0 p1 p2 : monster_type)
    (hb : m.base_monster = p0) (h2 : m.props "chimera_part_2" = some p1)
    (h3 : m.props "chimera_part_3" = some p2) (hr : roles_in_range m.props) :
    ∃ w, get_chimera_wings E m = .ok w ∧
      (w = E.MONS_NO_MONSTER ∨ w = p0 ∨ w = p1 ∨ w = p2) := by
  unfold get_chimera_wings chimera_is_batty props_exists props_get_int
  cases hB : m.props "chimera_batty" with
  | some v =>
    refine ⟨_, ?_, Or.inr (part_id_cases p0 p1 p2 v)⟩
    simpa using get_chimera_part_of_role E m p0 p1 p2 hb h2 h3 v (hr _ (Or.inl rfl) v hB)
  | none =>
    cases hW : m.props "chimera_wings" with
    | some v =>
      refine ⟨_, ?_, Or.inr (part_id_cases p0 p1 p2 v)⟩
      simpa using get_chimera_part_of_role E m p0 p1 p2 hb h2 h3 v
        (hr _ (Or.inr (Or.inl rfl)) v hW)
    | none => exact ⟨E.MONS_NO_MONSTER, by simp, Or.inl rfl⟩

theorem get_chimera_legs_assembled (E : Env G P) (m : monster) (p0 p1 p2 : monster_type)
    (hb : m.base_monster = p0) (h2 : m.props "chimera_part_2" = some p1)
    (h3 : m.props "chimera_part_3" = some p2) (hr : roles_in_range m.props) :
    ∃ l, get_chimera_legs E m = .ok l ∧
      (l = E.MONS_NO_MONSTER ∨ l = p0 ∨ l = p1 ∨ l = p2) := by
  unfold get_chimera_legs props_exists props_get_int
  cases hL : m.props "chimera_legs" with
  | some v =>
    refine ⟨_, ?_, Or.inr (part_id_cases p0 p1 p2 v)⟩
    simpa using get_chimera_part_of_role E m p0 p1 p2 hb h2 h3 v
      (hr _ (Or.inr (Or.inr rfl)) v hL)
  | none => exact ⟨E.MONS_NO_MONSTER, by simp, Or.inl rfl⟩

theorem define_chimera_in_range (E : Env G P) (g : G) (mon : monster)
    (p0 p1 p2 : monster_type) (r : G × monster)
    (h : define_chimera E g mon p0 p1 p2 = .ok r)
    (hr : roles_in_range (chimera_baseline E g mon p0 p1 p2).2.props) :
    roles_in_range r.2.props := by
  rw [define_chimera_props E g mon p0 p1 p2 r h, ← applied3_props]
  exact applied3_in_range E g mon p0 p1 p2 hr

/-- C19: role markers are always resolvable. After `define_chimera` on a
target with no batty-, wings- or legs-role recorded when the parts are
applied, every recorded role is 1, 2 or 3; the entries of part 2 and part 3
exist, so `get_chimera_part` at a recorded role returns the id of that part and
not the value for an absent entry; `get_chimera_wings` and `get_chimera_legs`
return, each with `MONS_NO_MONSTER` or one of the three input ids, hence never
with `MONS_PROGRAM_BUG` unless that is one of these four values. With valid
parts `define_chimera` itself returns. -/
theorem define_chimera_roles_resolvable (E : Env G P) (g : G) (mon : monster)
    (p0 p1 p2 : monster_type)
    (hbatty : (chimera_baseline E g mon p0 p1 p2).2.props "chimera_batty" = none)
    (hwings : (chimera_baseline E g mon p0 p1 p2).2.props "chimera_wings" = none)
    (hlegs : (chimera_baseline E g mon p0 p1 p2).2.props "chimera_legs" = none) :
    (is_valid_chimera_part E p0 = true → is_valid_chimera_part E p1 = true →
      is_valid_chimera_part E p2 = true → ∃ r, define_chimera E g mon p0 p1 p2 = .ok r) ∧
    ∀ r, define_chimera E g mon p0 p1 p2 = .ok r →
      (∀ key, key = "chimera_batty" ∨ key = "chimera_wings" ∨ key = "chimera_legs" →
        ∀ n, r.2.props key = some n →
          (n = 1 ∨ n = 2 ∨ n = 3) ∧
          get_chimera_part E r.2 n = .ok (if n = 1 then p0 else if n = 2 then p1 else p2)) ∧
      (props_exists r.2.props "chimera_part_2" = true ∧
        props_exists r.2.props "chimera_part_3" = true) ∧
      (∃ w, get_chimera_wings E r.2 = .ok w ∧
        (w = E.MONS_NO_MONSTER ∨ w = p0 ∨ w = p1 ∨ w = p2) ∧
        (E.MONS_PROGRAM_BUG ≠ E.MONS_NO_MONSTER → E.MONS_PROGRAM_BUG ≠ p0 →
          E.MONS_PROGRAM_BUG ≠ p1 → E.MONS_PROGRAM_BUG ≠ p2 → w ≠ E.MONS_PROGRAM_BUG)) ∧
      (∃ l, get_chimera_legs E r.2 = .ok l ∧
        (l = E.MONS_NO_MONSTER ∨ l = p0 ∨ l = p1 ∨ l = p2) ∧
        (E.MONS_PROGRAM_BUG ≠ E.MONS_NO_MONSTER → E.MONS_PROGRAM_BUG ≠ p0 →
          E.MONS_PROGRAM_BUG ≠ p1 → E.MONS_PROGRAM_BUG ≠ p2 → l ≠ E.MONS_PROGRAM_BUG)) := by
  have hbase := roles_in_range_of_none _ hbatty hwings hlegs
  refine ⟨fun v0 v1 v2 => define_chimera_ok E g mon p0 p1 p2 v0 v1 v2 hbase, ?_⟩
  intro r h
  have hr := define_chimera_in_range E g mon p0 p1 p2 r h hbase
  obtain ⟨-, -, -, hb, h2, h3⟩ := define_chimera_parts E g mon p0 p1 p2 r h
  refine ⟨?_, ?_, ?_, ?_⟩
  · intro key hkey n hn
    have hin := hr key hkey n hn
    exact ⟨by omega, get_chimera_part_of_role E r.2 p0 p1 p2 hb h2 h3 n hin⟩
  · simp [props_exists, h2, h3]
  · obtain ⟨w, hw, hc⟩ := get_chimera_wings_assembled E r.2 p0 p1 p2 hb h2 h3 hr
    refine ⟨w, hw, hc, ?_⟩
    intro n0 n1 n2 n3 hbug
    rcases hc with c | c | c | c
    · exact n0 (hbug.symm.trans c)
    · exact n1 (hbug.symm.trans c)
    · exact n2 (hbug.symm.trans c)
    · exact n3 (hbug.symm.trans c)
  · obtain ⟨l, hl, hc⟩ := get_chimera_legs_assembled E r.2 p0 p1 p2 hb h2 h3 hr
    refine ⟨l, hl, hc, ?_⟩
    intro n0 n1 n2 n3 hbug
    rcases hc with c | c | c | c
    · exact n0 (hbug.symm.trans c)
    · exact n1 (hbug.symm.trans c)
    · exact n2 (hbug.symm.trans c)
    · exact n3 (hbug.symm.trans c)

/-- Witness for C19: in the sample chimera of parts 1, 4, 5 the recorded roles
are batty 2, wings 3 and legs 1; the wings resolve to 4 and the legs to 1. -/
theorem define_chimera_roles_resolvable_witness :
    (chimera_baseline sampleEnv 0 blank_monster 1 4 5).2.props "chimera_batty" = none ∧
    (chimera_baseline sampleEnv 0 blank_monster 1 4 5).2.props "chimera_wings" = none ∧
    (chimera_baseline sampleEnv 0 blank_monster 1 4 5).2.props "chimera_legs" = none ∧
    define_chimera sampleEnv 0 blank_monster 1 4 5 = .ok (sample_chimera 1 4 5) ∧
    (sample_chimera 1 4 5).2.props "chimera_batty" = some 2 ∧
    (sample_chimera 1 4 5).2.props "chimera_wings" = some 3 ∧
    (sample_chimera 1 4 5).2.props "chimera_legs" = some 1 ∧
    get_chimera_wings sampleEnv (sample_chimera 1 4 5).2 = .ok 4 ∧
    get_chimera_legs sampleEnv (sample_chimera 1 4 5).2 = .ok 1 ∧
    (∃ w, get_chimera_wings sampleEnv (sample_chimera 1 4 5).2 = .ok w ∧
      (w = sampleEnv.MONS_NO_MONSTER ∨ w = 1 ∨ w = 4 ∨ w = 5) ∧
      (sampleEnv.MONS_PROGRAM_BUG ≠ sampleEnv.MONS_NO_MONSTER →
        sampleEnv.MONS_PROGRAM_BUG ≠ 1 → sampleEnv.MONS_PROGRAM_BUG ≠ 4 →
        sampleEnv.MONS_PROGRAM_BUG ≠ 5 → w ≠ sampleEnv.MONS_PROGRAM_BUG)) :=
  ⟨rfl, rfl, rfl, rfl, by decide, by decide, by decide, rfl, rfl,
   ((define_chimera_roles_resolvable sampleEnv 0 blank_monster 1 4 5 rfl rfl rfl).2
      (sample_chimera 1 4 5) rfl).2.2.1⟩

/-! ## Duplicate parts -/

theorem get_chimera_part_ok_cases (E : Env G P) (m : monster) (p0 p1 p2 : monster_type)
    (hb : m.base_monster = p0) (h2 : m.props "chimera_part_2" = some p1)
    (h3 : m.props "chimera_part_3" = some p2) (n : Int) (x : monster_type)
    (h : get_chimera_part E m n = .ok x) : x = p0 ∨ x = p1 ∨ x = p2 := by
  by_cases hn : 1 ≤ n ∧ n < 4
  · rw [get_chimera_part_of_role E m p0 p1 p2 hb h2 h3 n hn] at h
    rw [← Except.ok.inj h]
    exact part_id_cases p0 p1 p2 n
  · unfold get_chimera_part at h
    rw [if_pos hn] at h
    cases h

theorem get_chimera_wings_ok_cases (E : Env G P) (m : monster) (p0 p1 p2 : monster_type)
    (hb : m.base_monster = p0) (h2 : m.props "chimera_part_2" = some p1)
    (h3 : m.props "chimera_part_3" = some p2) (w : monster_type)
    (h : get_chimera_wings E m = .ok w) :
    w = E.MONS_NO_MONSTER ∨ w = p0 ∨ w = p1 ∨ w = p2 := by
  unfold get_chimera_wings at h
  split_ifs at h
  · exact Or.inr (get_chimera_part_ok_cases E m p0 p1 p2 hb h2 h3 _ w h)
  · exact Or.inr (get_chimera_part_ok_cases E m p0 p1 p2 hb h2 h3 _ w h)
  · exact Or.inl (Except.ok.inj h).symm

theorem get_chimera_legs_ok_cases (E : Env G P) (m : monster) (p0 p1 p2 : monster_type)
    (hb : m.base_monster = p0) (h2 : m.props "chimera_part_2" = some p1)
    (h3 : m.props "chimera_part_3" = some p2) (l : monster_type)
    (h : get_chimera_legs E m = .ok l) :
    l = E.MONS_NO_MONSTER ∨ l = p0 ∨ l = p1 ∨ l = p2 := by
  unfold get_chimera_legs at h
  split_ifs at h
  · exact Or.inr (get_chimera_part_ok_cases E m p0 p1 p2 hb h2 h3 _ l h)
  · exact Or.inl (Except.ok.inj h).symm

theorem get_chimera_legs_of_role (E : Env G P) (m : monster) (n : Int)
    (h : m.props "chimera_legs" = some n) :
    get_chimera_legs E m = get_chimera_part E m n := by
  simp [get_chimera_legs, props_exists, props_get_int, h]

/-- The speed of a result whose legs resolve to `p0`: the override by the base
speed of the legs is not taken. -/
theorem define_chimera_speed_legs_base (E : Env G P) (g : G) (mon : monster)
    (p0 p1 p2 : monster_type) (r : G × monster)
    (h : define_chimera E g mon p0 p1 p2 = .ok r) (w : monster_type)
    (hw : get_chimera_wings E r.2 = .ok w) (hl : get_chimera_legs E r.2 = .ok p0) :
    r.2.speed =
      (if w ≠ E.MONS_NO_MONSTER ∧ w ≠ p0 then
        Int.tdiv (E.mons_class_base_speed p0 + E.mons_class_base_speed w) 2
      else (chimera_baseline E g mon p0 p1 p2).2.speed) := by
  rw [define_chimera_speed_formula E g mon p0 p1 p2 r h w p0 hw hl]
  simp

/-- C20: duplicate parts leave the speed alone. When the three parts are the
same type `t`, every result of `define_chimera` has the speed left by the
instantiation of `t`, whatever the capabilities of `t` and whichever part
numbers hold the roles (wings and legs are compared as type ids). More
generally, when the legs-role is held by part 2 or part 3 and the id of that
part is `p0`, the legs resolve to `p0` and the speed is the average with the
wings if there are wings of another id, and otherwise the speed left by the
instantiation of `p0`: the override by the base speed of the legs is not
taken. The call returns for valid parts with in-range role markers. -/
theorem define_chimera_duplicate_parts_speed (E : Env G P) (g : G) (mon : monster)
    (p0 p1 p2 : monster_type) :
    (∀ t,
      (is_valid_chimera_part E t = true →
        roles_in_range (chimera_baseline E g mon t t t).2.props →
        ∃ r, define_chimera E g mon t t t = .ok r) ∧
      ∀ r, define_chimera E g mon t t t = .ok r →
        r.2.speed = (chimera_baseline E g mon t t t).2.speed) ∧
    ∀ r, define_chimera E g mon p0 p1 p2 = .ok r →
      ∀ w, get_chimera_wings E r.2 = .ok w →
        (r.2.props "chimera_legs" = some 2 ∧ p1 = p0) ∨
          (r.2.props "chimera_legs" = some 3 ∧ p2 = p0) →
        get_chimera_legs E r.2 = .ok p0 ∧
        r.2.speed =
          (if w ≠ E.MONS_NO_MONSTER ∧ w ≠ p0 then
            Int.tdiv (E.mons_class_base_speed p0 + E.mons_class_base_speed w) 2
          else (chimera_baseline E g mon p0 p1 p2).2.speed) := by
  refine ⟨?_, ?_⟩
  · intro t
    refine ⟨fun hv hr => define_chimera_ok E g mon t t t hv hv hv hr, ?_⟩
    intro r h
    obtain ⟨-, -, -, hb, h2, h3⟩ := define_chimera_parts E g mon t t t r h
    obtain ⟨w, l, hw, hl⟩ := define_chimera_roles_resolve E g mon t t t r h
    have cw := get_chimera_wings_ok_cases E r.2 t t t hb h2 h3 w hw
    have cl := get_chimera_legs_ok_cases E r.2 t t t hb h2 h3 l hl
    rw [define_chimera_speed_formula E g mon t t t r h w l hw hl]
    have hL : (if l = E.MONS_NO_MONSTER then t else l) = t := by
      split_ifs with c
      · rfl
      · rcases cl with c2 | c2 | c2 | c2
        · exact absurd c2 c
        · exact c2
        · exact c2
        · exact c2
    rw [hL]
    have c1 : ¬ (w ≠ E.MONS_NO_MONSTER ∧ w ≠ t) := by
      rintro ⟨a, b⟩
      rcases cw with c2 | c2 | c2 | c2
      · exact a c2
      · exact b c2
      · exact b c2
      · exact b c2
    rw [if_neg c1]
    simp
  · intro r h w hw hrole
    obtain ⟨-, g2, g3, -, -, -⟩ := define_chimera_parts E g mon p0 p1 p2 r h
    have hl : get_chimera_legs E r.2 = .ok p0 := by
      rcases hrole with ⟨hL, hp⟩ | ⟨hL, hp⟩
      · rw [get_chimera_legs_of_role E r.2 2 hL, g2, hp]
      · rw [get_chimera_legs_of_role E r.2 3 hL, g3, hp]
    exact ⟨hl, define_chimera_speed_legs_base E g mon p0 p1 p2 r h w hw hl⟩

/-- Witness for C20: the chimera of three birds (type 5, flies) keeps the speed
14 of the instantiation although part 3 holds the wings-role; in the chimera
of parts 3, 3, 2 the jumpy part 2 holds the legs-role, its id is `p0` and the
speed is the one left by the instantiation of `p0`. -/
theorem define_chimera_duplicate_parts_speed_witness :
    define_chimera sampleEnv 0 blank_monster 5 5 5 = .ok (sample_chimera 5 5 5) ∧
    (sample_chimera 5 5 5).2.props "chimera_wings" = some 3 ∧
    (sample_chimera 5 5 5).2.speed = (chimera_baseline sampleEnv 0 blank_monster 5 5 5).2.speed ∧
    (sample_chimera 5 5 5).2.speed = 14 ∧
    define_chimera sampleEnv 0 blank_monster 3 3 2 = .ok (sample_chimera 3 3 2) ∧
    (sample_chimera 3 3 2).2.props "chimera_legs" = some 2 ∧
    (get_chimera_legs sampleEnv (sample_chimera 3 3 2).2 = .ok 3 ∧
      (sample_chimera 3 3 2).2.speed =
        (if sampleEnv.MONS_NO_MONSTER ≠ sampleEnv.MONS_NO_MONSTER ∧
            sampleEnv.MONS_NO_MONSTER ≠ 3 then
          Int.tdiv (sampleEnv.mons_class_base_speed 3
            + sampleEnv.mons_class_base_speed sampleEnv.MONS_NO_MONSTER) 2
        else (chimera_baseline sampleEnv 0 blank_monster 3 3 2).2.speed)) :=
  ⟨rfl, by decide,
   ((define_chimera_duplicate_parts_speed sampleEnv 0 blank_monster 5 5 5).1 5).2
     (sample_chimera 5 5 5) rfl,
   by decide, rfl, by decide,
   (define_chimera_duplicate_parts_speed sampleEnv 0 blank_monster 3 3 2).2
     (sample_chimera 3 3 2) rfl sampleEnv.MONS_NO_MONSTER rfl (Or.inl ⟨by decide, rfl⟩)⟩

end Chimera
